import Mathlib

/-!
Formal model of the Aviation-Maintenance-App recommendation / approval /
notification pipeline.

The TypeScript sources are shallowly embedded as pure Lean functions:

* JavaScript numbers become `ℚ` (all arithmetic in the modelled code is exact
  on rationals), epoch-millisecond timestamps become `Nat`, and `Date`
  values / ISO strings are represented by their underlying epoch
  milliseconds.
* `Math.random()` draws are passed explicitly, either as a stream
  `Nat → ℚ` of draws (values in `[0,1)`) or as a single rational / seed
  argument.
* The module-level mutable stores (`mockRecommendations`,
  `mockActiveWorkflows`) become explicit state threaded through the route
  handlers; object-key maps become association lists in insertion order,
  matching JavaScript object-key enumeration.
* Effectful sends (SMTP etc.) are parametrised by an outcome oracle: the
  per-send result that the transport would have produced.
-/

/-! ## JavaScript-semantics helpers -/

/-- Truthiness of an optional string body field: absent and `""` are falsy. -/
def jsTruthy : Option String → Bool
  | none => false
  | some s => s ≠ ""

/-- JavaScript `x || d` on an optional number: `undefined` and `0` are falsy. -/
def jsOrNum (x : Option ℚ) (d : ℚ) : ℚ :=
  match x with
  | none => d
  | some v => if v = 0 then d else v

/-- JavaScript `s || d` on an optional string: `undefined` and `""` are falsy. -/
def jsOrStr (x : Option String) (d : String) : String :=
  match x with
  | none => d
  | some v => if v = "" then d else v

/-- Model of `Math.floor` on a rational, as an integer. -/
def jsFloor (q : ℚ) : ℤ := ⌊q⌋

/-- Model of `Math.floor` of a non-negative random expression, as a natural number. -/
def jsFloorNat (q : ℚ) : Nat := (⌊q⌋).toNat

/-- Model of `Math.round` (round half toward positive infinity, as in JavaScript). -/
def jsRound (q : ℚ) : ℤ := ⌊q + 1/2⌋

/-- Replace the first element satisfying `p` by its image under `f`
(JavaScript `Array.prototype.find` + in-place mutation of the found object). -/
def updateFirst (p : α → Bool) (f : α → α) : List α → List α
  | [] => []
  | x :: xs => if p x then f x :: xs else x :: updateFirst p f xs

/-- JavaScript object-key assignment `obj[k] = v` on an association list:
overwrite in place when the key exists, append otherwise. -/
def setKey (l : List (String × α)) (k : String) (v : α) : List (String × α) :=
  match l with
  | [] => [(k, v)]
  | (k', v') :: rest =>
      if k' = k then (k, v) :: rest else (k', v') :: setKey rest k v

/-- JavaScript object-key lookup `obj[k]` on an association list. -/
def lookupKey (l : List (String × α)) (k : String) : Option α :=
  (l.find? (fun p => p.1 = k)).map Prod.snd

/-- JavaScript `String.prototype.includes` on character lists. -/
def charsInclude (pat : List Char) : List Char → Bool
  | [] => pat.isEmpty
  | c :: rest => pat.isPrefixOf (c :: rest) || charsInclude pat rest

/-- JavaScript `s.includes(pat)`. -/
def strIncludes (s pat : String) : Bool :=
  charsInclude pat.data s.data

/-! ## Email service (`src/lib/email-service.ts`) -/

/-- Notification target (`EmailRecipient`). -/
structure EmailRecipient where
  name : String
  email : String
  role : String
deriving DecidableEq, Repr

/-- Outcome of one `sendEmail` invocation, as the dispatcher loop observes
it: a successful result, an unsuccessful result carrying an error string, or
a thrown exception carrying a message. -/
inductive SendOutcome where
  | success (messageId : String)
  | failure (error : String)
  | thrown (error : String)
deriving DecidableEq, Repr

/-- Whether an outcome is a successful send. -/
def SendOutcome.isSuccess : SendOutcome → Bool
  | .success _ => true
  | _ => false

/-- Summary returned by `sendMaintenanceNotificationEmails`. -/
structure NotificationSummary where
  success : Bool
  sentEmails : Nat
  failures : List String
deriving DecidableEq, Repr

/-- Loop body of `sendMaintenanceNotificationEmails`: walk the recipients in
order, each paired with the outcome its send produced; count successful
results and collect failure strings. -/
def notifyLoop : List (EmailRecipient × SendOutcome) → Nat × List String
  | [] => (0, [])
  | (r, o) :: rest =>
      let acc := notifyLoop rest
      match o with
      | .success _ => (acc.1 + 1, acc.2)
      | .failure e => (acc.1, ("Failed to send to " ++ r.name ++ ": " ++ e) :: acc.2)
      | .thrown e => (acc.1, ("Exception sending to " ++ r.name ++ ": " ++ e) :: acc.2)

/-- Model of `sendMaintenanceNotificationEmails`, parametrised by the per-recipient
send outcomes (the email payload influences only the rendered content, never
the summary accounting, and is therefore not a parameter of the model). -/
def sendMaintenanceNotificationEmails
    (sends : List (EmailRecipient × SendOutcome)) : NotificationSummary :=
  let acc := notifyLoop sends
  { success := acc.2.length = 0
    sentEmails := acc.1
    failures := acc.2 }

/-- Model of `MaintenanceEmailService.getDefaultRecipients`. -/
def getDefaultRecipients (maintenanceType : String) : List EmailRecipient :=
  let baseRecipients : List EmailRecipient :=
    [ ⟨"John Smith", "john.smith@ganderaviation.com", "MECHANIC"⟩,
      ⟨"Tom Anderson", "tom.anderson@ganderaviation.com", "SUPERVISOR"⟩,
      ⟨"Sarah Johnson", "sarah.johnson@ganderaviation.com", "PARTS_MANAGER"⟩ ]
  let withInspector :=
    if ["C_CHECK", "ANNUAL", "100_HOUR"].contains maintenanceType then
      baseRecipients ++
        [⟨"David Chen", "david.chen@ganderaviation.com", "INSPECTOR"⟩]
    else baseRecipients
  withInspector ++ [⟨"Captain Mike Wilson", "mike.wilson@ganderaviation.com", "PILOT"⟩]

/-! ### Message-id generation (`sendEmail` / `sendSimulatedEmail`)

`sendEmail` builds `msg-${Date.now()}-${Math.random().toString(36).substr(2, 9)}`.
The decimal rendering of the timestamp and the base-36 random suffix are
modelled explicitly; the random draw is represented by the natural-number
seed whose base-36 digits are the suffix characters. -/

/-- Decimal digit character. -/
def decimalDigitChar (d : Nat) : Char :=
  if d = 0 then '0' else if d = 1 then '1' else if d = 2 then '2'
  else if d = 3 then '3' else if d = 4 then '4' else if d = 5 then '5'
  else if d = 6 then '6' else if d = 7 then '7' else if d = 8 then '8'
  else '9'

/-- Decimal digits of a natural number, most significant first (the
characters produced by JavaScript template interpolation of an integer). -/
def natDigits (n : Nat) : List Char :=
  if h : n < 10 then [decimalDigitChar n]
  else natDigits (n / 10) ++ [decimalDigitChar (n % 10)]
termination_by n
decreasing_by exact Nat.div_lt_self (by omega) (by omega)

/-- The base-36 digit alphabet used by `Number.prototype.toString(36)`. -/
def base36Chars : List Char := "0123456789abcdefghijklmnopqrstuvwxyz".data

/-- Base-36 digit character. -/
def base36Char (d : Nat) : Char := base36Chars.getD (d % 36) '0'

/-- The nine-character random suffix `Math.random().toString(36).substr(2, 9)`,
modelled as the first nine base-36 digits of the draw's seed. -/
def randSuffix (seed : Nat) : List Char :=
  (List.range 9).map (fun i => base36Char (seed / 36 ^ i % 36))

/-- The message id `msg-${now}-${suffix}` built at the top of `sendEmail`. -/
def mkSimMessageId (now : Nat) (suffix : List Char) : String :=
  String.mk ("msg-".data ++ natDigits now ++ '-' :: suffix)

/-- Environment of one simulated send: the millisecond clock reading at
`sendEmail` entry, the `Math.random` seed behind the message-id suffix, and
the `Math.random` draw governing the simulated 5% failure. -/
structure SimEnv where
  now : Nat
  seed : Nat
  failRoll : ℚ
deriving DecidableEq, Repr

/-- Result of one individual send. -/
structure EmailSendResult where
  success : Bool
  messageId : Option String
  error : Option String
deriving DecidableEq, Repr

/-- Model of `sendEmail` in simulation provider mode (delegating to
`sendSimulatedEmail`): fail with an `SMTP connection timeout` error when the
failure draw is below 5%, otherwise succeed with the generated message id.
The recipient and rendered content are logged only. -/
def sendEmailSimulated (recipient : EmailRecipient) (subject : String)
    (env : SimEnv) : EmailSendResult :=
  let messageId := mkSimMessageId env.now (randSuffix env.seed)
  let _ := recipient
  let _ := subject
  if env.failRoll < 1/20 then
    { success := false, messageId := none, error := some "SMTP connection timeout" }
  else
    { success := true, messageId := some messageId, error := none }

/-! ## Maintenance scheduler (`src/lib/maintenance-scheduler.ts`) -/

/-- Scheduling configuration (`SchedulingConfig`). -/
structure SchedulingConfig where
  costWeight : ℚ
  availabilityWeight : ℚ
  utilizationWeight : ℚ
  safetyWeight : ℚ
  minSafetyMarginHours : ℚ
  maxDowntimeHours : ℚ
  preferredMaintenanceDays : List Nat
  maintenanceCapacity : Nat
  predictionHorizonDays : Nat
  utilizationLookbackDays : Nat
deriving DecidableEq, Repr

/-- Model of `defaultSchedulingConfig`. -/
def defaultSchedulingConfig : SchedulingConfig :=
  { costWeight := 3/10
    availabilityWeight := 2/5
    utilizationWeight := 1/5
    safetyWeight := 1/10
    minSafetyMarginHours := 10
    maxDowntimeHours := 48
    preferredMaintenanceDays := [0, 6]
    maintenanceCapacity := 2
    predictionHorizonDays := 90
    utilizationLookbackDays := 30 }

/-- A predicted maintenance item (`MaintenanceScheduleItem`). -/
structure MaintenanceScheduleItem where
  id : String
  aircraftId : String
  tailNumber : String
  maintenanceType : String
  scheduledDate : Nat
  estimatedDuration : ℚ
  priority : String
  confidenceScore : ℚ
  reasoning : List String
  conflictsWith : List String
  alternativeDates : List Nat
  estimatedCost : ℚ
  impactOnOperations : String
  requiredParts : List String
  mechanicRequirements : List String
deriving DecidableEq, Repr

/-- Utilization pattern (`UtilizationPattern`); only the fields the modelled
score functions receive (and ignore) are carried. -/
structure UtilizationPattern where
  aircraftId : String
  dailyAverageHours : ℚ
  weeklyPattern : List ℚ
  monthlyPattern : List ℚ
deriving DecidableEq, Repr

/-- A flight plan (`FlightPlan`); the evaluator receives and ignores it. -/
structure FlightPlan where
  id : String
  aircraftId : String
  estimatedFlightTime : ℚ
  status : String
deriving DecidableEq, Repr

/-- A work order (`WorkOrder`); `optimizeSchedule` receives and ignores it. -/
structure WorkOrder where
  id : String
  aircraftId : String
  status : String
deriving DecidableEq, Repr

/-- Model of `mutateSchedule` — the "genetic algorithm mutation" placeholder, a
literal identity on the schedule. -/
def mutateSchedule (schedule : List MaintenanceScheduleItem)
    (patterns : List UtilizationPattern) : List MaintenanceScheduleItem :=
  let _ := patterns
  schedule

/-- Model of `calculateCostScore` — returns the constant `0.8`. -/
def calculateCostScore (schedule : List MaintenanceScheduleItem) : ℚ :=
  let _ := schedule
  4/5

/-- Model of `calculateAvailabilityScore` — returns the constant `0.9`. -/
def calculateAvailabilityScore (schedule : List MaintenanceScheduleItem)
    (patterns : List UtilizationPattern) : ℚ :=
  let _ := schedule
  let _ := patterns
  9/10

/-- Model of `calculateUtilizationScore` — returns the constant `0.85`. -/
def calculateUtilizationScore (schedule : List MaintenanceScheduleItem)
    (patterns : List UtilizationPattern) : ℚ :=
  let _ := schedule
  let _ := patterns
  17/20

/-- Model of `calculateSafetyScore` — returns the constant `0.95`. -/
def calculateSafetyScore (schedule : List MaintenanceScheduleItem) : ℚ :=
  let _ := schedule
  19/20

/-- Model of `evaluateSchedule`: the weighted sum of the four score functions. -/
def evaluateSchedule (config : SchedulingConfig)
    (schedule : List MaintenanceScheduleItem)
    (patterns : List UtilizationPattern)
    (upcomingFlights : List FlightPlan) : ℚ :=
  let costScore := calculateCostScore schedule
  let availabilityScore := calculateAvailabilityScore schedule patterns
  let utilizationScore := calculateUtilizationScore schedule patterns
  let safetyScore := calculateSafetyScore schedule
  let _ := upcomingFlights
  costScore * config.costWeight +
    availabilityScore * config.availabilityWeight +
    utilizationScore * config.utilizationWeight +
    safetyScore * config.safetyWeight

/-- The 100-iteration improvement loop inside `optimizeSchedule`: keep the
best schedule and score, replace them only when a mutated candidate scores
strictly higher. -/
def optimizeScheduleLoop (config : SchedulingConfig)
    (patterns : List UtilizationPattern) (upcomingFlights : List FlightPlan) :
    Nat → List MaintenanceScheduleItem × ℚ → List MaintenanceScheduleItem × ℚ
  | 0, best => best
  | n + 1, (bestSchedule, bestScore) =>
      let mutatedSchedule := mutateSchedule bestSchedule patterns
      let score := evaluateSchedule config mutatedSchedule patterns upcomingFlights
      optimizeScheduleLoop config patterns upcomingFlights n
        (if bestScore < score then (mutatedSchedule, score) else (bestSchedule, bestScore))

/-- Model of `optimizeSchedule`. -/
def optimizeSchedule (config : SchedulingConfig)
    (predictedMaintenance : List MaintenanceScheduleItem)
    (upcomingFlights : List FlightPlan)
    (patterns : List UtilizationPattern)
    (currentWorkOrders : List WorkOrder) : List MaintenanceScheduleItem :=
  let _ := currentWorkOrders
  let bestSchedule := predictedMaintenance
  let bestScore := evaluateSchedule config bestSchedule patterns upcomingFlights
  (optimizeScheduleLoop config patterns upcomingFlights 100 (bestSchedule, bestScore)).1

/-! ## OpenAI maintenance service (`src/unnamed/part_004`, `OpenAIMaintenanceService`) -/

/-- Model of `MaintenanceRecommendationInput.aircraftData.lastInspection`. -/
structure LastInspection where
  type : String
  date : String
  hoursAgo : ℚ
deriving DecidableEq, Repr

/-- Model of `MaintenanceRecommendationInput.aircraftData`. -/
structure AircraftData where
  tailNumber : String
  aircraftType : String
  totalAircraftTime : ℚ
  totalCycles : ℚ
  lastInspection : Option LastInspection
deriving DecidableEq, Repr

/-- Model of `MaintenanceRecommendationInput.utilizationData`. -/
structure UtilizationData where
  utilizationPercentage : ℚ
  flightHours : ℚ
  avgFlightTime : ℚ
  maintenanceRisk : String
  trend : String
deriving DecidableEq, Repr

/-- One `flightHistory` entry of a `MaintenanceRecommendationInput`. -/
structure FlightHistEntry where
  flightDate : Nat
  flightTime : ℚ
  cycles : ℚ
deriving DecidableEq, Repr

/-- Model of `MaintenanceRecommendationInput.scheduleDemandData`. -/
structure ScheduleDemandData where
  currentPeriodDemand : String
  upcomingBookings : ℚ
  averageWeeklyUtilization : ℚ
  demandTrend : String
  operationalPressure : String
deriving DecidableEq, Repr

/-- Model of `MaintenanceRecommendationInput.seasonalData`. -/
structure SeasonalData where
  currentSeason : String
  peakSeason : Bool
  seasonalDemandPattern : String
  weatherFactors : List String
  maintenanceWindowOpportunity : String
deriving DecidableEq, Repr

/-- Model of `MaintenanceRecommendationInput`. -/
structure MaintenanceRecommendationInput where
  aircraftData : AircraftData
  utilizationData : UtilizationData
  flightHistory : List FlightHistEntry
  scheduleDemandData : Option ScheduleDemandData
  seasonalData : Option SeasonalData
deriving DecidableEq, Repr

/-- Model of `AIMaintenanceRecommendation` (suggested dates as rational epoch ms). -/
structure AIMaintenanceRecommendation where
  tailNumber : String
  maintenanceType : String
  priority : String
  confidence : ℚ
  reasoning : String
  estimatedCost : ℚ
  estimatedDuration : ℚ
  suggestedDate : ℚ
  riskFactors : List String
  complianceRequirements : List String
deriving DecidableEq, Repr

/-- One raw recommendation object of a parsed model response, every field
possibly absent or of the wrong shape (`rec.riskFactors` etc. are only used
when `Array.isArray` holds, which the `Option` models). -/
structure RawAIRec where
  tailNumber : Option String
  maintenanceType : Option String
  priority : Option String
  confidence : Option ℚ
  reasoning : Option String
  estimatedCost : Option ℚ
  estimatedDuration : Option ℚ
  suggestedDateOffset : Option ℚ
  riskFactors : Option (List String)
  complianceRequirements : Option (List String)
deriving DecidableEq, Repr

/-- Model of `getComplianceRequirements`. -/
def getComplianceRequirements (maintenanceType : String) : List String :=
  if maintenanceType = "A_CHECK" then ["FAR 91.409", "FAR 135.421"]
  else if maintenanceType = "B_CHECK" then ["FAR 91.409", "FAR 135.421", "FAR 145.109"]
  else if maintenanceType = "C_CHECK" then ["FAR 91.409", "FAR 135.421", "FAR 145.109"]
  else if maintenanceType = "ANNUAL" then ["FAR 91.409", "FAR 91.411"]
  else if maintenanceType = "100_HOUR" then ["FAR 91.409", "FAR 135.421"]
  else if maintenanceType = "AD_COMPLIANCE" then ["FAR 39.7", "FAR 91.403"]
  else if maintenanceType = "ENGINE_OVERHAUL" then ["FAR 91.421", "FAR 135.421"]
  else ["FAR 91.409"]

/-- Model of `getMaintenanceCost`. -/
def getMaintenanceCost (type : String) : ℚ :=
  if type = "A_CHECK" then 15000
  else if type = "B_CHECK" then 35000
  else if type = "C_CHECK" then 85000
  else if type = "D_CHECK" then 200000
  else if type = "100_HOUR" then 4000
  else if type = "ANNUAL" then 18000
  else if type = "PROGRESSIVE" then 25000
  else if type = "AD_COMPLIANCE" then 8000
  else if type = "SB_COMPLIANCE" then 12000
  else if type = "ENGINE_OVERHAUL" then 450000
  else if type = "PROP_OVERHAUL" then 25000
  else 10000

/-- Model of `getMaintenanceDuration`. -/
def getMaintenanceDuration (type : String) : ℚ :=
  if type = "A_CHECK" then 8
  else if type = "B_CHECK" then 24
  else if type = "C_CHECK" then 120
  else if type = "D_CHECK" then 720
  else if type = "100_HOUR" then 4
  else if type = "ANNUAL" then 36
  else if type = "PROGRESSIVE" then 16
  else if type = "AD_COMPLIANCE" then 6
  else if type = "SB_COMPLIANCE" then 12
  else if type = "ENGINE_OVERHAUL" then 240
  else if type = "PROP_OVERHAUL" then 48
  else 8

/-- Model of `getCurrentSeason` (month is `Date.getMonth()`, `0`–`11`). -/
def getCurrentSeason (month : Nat) : String :=
  if 2 ≤ month ∧ month ≤ 4 then "SPRING"
  else if 5 ≤ month ∧ month ≤ 7 then "SUMMER"
  else if 8 ≤ month ∧ month ≤ 10 then "FALL"
  else "WINTER"

/-- Model of `isPeakSeason`. -/
def isPeakSeason (month : Nat) : Bool :=
  (5 ≤ month ∧ month ≤ 7) ∨ month = 11 ∨ month = 0

/-- Model of `getSeasonalWeatherFactors`. -/
def getSeasonalWeatherFactors (season : String) : List String :=
  if season = "SPRING" then
    ["Variable weather patterns", "Increased turbulence", "Pollen and dust exposure"]
  else if season = "SUMMER" then
    ["High temperature operations", "Thunderstorm activity", "Increased UV exposure"]
  else if season = "FALL" then
    ["Temperature fluctuations", "Increased precipitation", "Seasonal wind patterns"]
  else if season = "WINTER" then
    ["Cold weather operations", "Ice and snow conditions", "Reduced daylight hours"]
  else []

/-- Model of `getMaintenanceWindowOpportunity`. -/
def getMaintenanceWindowOpportunity (month : Nat) : String :=
  let isPeak := isPeakSeason month
  if ¬isPeak ∧ (month = 1 ∨ month = 2 ∨ month = 9 ∨ month = 10) then "EXCELLENT"
  else if ¬isPeak then "GOOD"
  else if month = 6 ∨ month = 7 then "LIMITED"
  else "POOR"

/-- Model of `getEnhancedRiskFactors`. -/
def getEnhancedRiskFactors (utilization : UtilizationData)
    (maintenanceType : String) (scheduleDemand : ScheduleDemandData)
    (seasonalData : SeasonalData) : List String :=
  let factors :=
    (if scheduleDemand.operationalPressure = "HIGH" then
      ["High operational pressure limiting maintenance windows"] else []) ++
    (if scheduleDemand.currentPeriodDemand = "PEAK" then
      ["Peak demand period reducing aircraft availability"] else []) ++
    (if scheduleDemand.demandTrend = "INCREASING" then
      ["Increasing demand trend affecting scheduling flexibility"] else []) ++
    (if seasonalData.peakSeason then
      ["Peak season operational constraints"] else []) ++
    (if seasonalData.maintenanceWindowOpportunity = "POOR" then
      ["Limited seasonal maintenance windows"] else []) ++
    (match seasonalData.weatherFactors with
     | [] => []
     | w :: _ => ["Seasonal weather: " ++ w.toLower]) ++
    (if utilization.utilizationPercentage > 75 then ["High utilization rate"] else []) ++
    (if utilization.maintenanceRisk = "HIGH" then ["Elevated maintenance risk"] else []) ++
    (if utilization.trend = "INCREASING" then ["Increasing flight activity"] else []) ++
    (if strIncludes maintenanceType "CHECK" then ["Scheduled inspection due"] else [])
  if factors.length > 0 then factors else ["Standard maintenance interval"]

/-- The per-recommendation mapping inside `processAIRecommendations`:
defaults for missing fields, and the model-returned confidence clamped by
`Math.max(50, Math.min(95, rec.confidence || 75))`. -/
def processedAIRec (now : Nat) (rec : RawAIRec) : AIMaintenanceRecommendation :=
  { tailNumber := rec.tailNumber.getD ""
    maintenanceType := rec.maintenanceType.getD "A_CHECK"
    priority := rec.priority.getD "MEDIUM"
    confidence := max 50 (min 95 (jsOrNum rec.confidence 75))
    reasoning := rec.reasoning.getD "AI-generated maintenance recommendation"
    estimatedCost := jsOrNum rec.estimatedCost 10000
    estimatedDuration := jsOrNum rec.estimatedDuration 8
    suggestedDate := (now : ℚ) + jsOrNum rec.suggestedDateOffset 7 * (24 * 60 * 60 * 1000)
    riskFactors := rec.riskFactors.getD ["Standard maintenance"]
    complianceRequirements :=
      rec.complianceRequirements.getD
        (match rec.maintenanceType with
         | some t => getComplianceRequirements t
         | none => ["FAR 91.409"]) }

/-- Model of `processAIRecommendations`: reject a response without a recommendations
array, otherwise map each raw object through the defaulting/clamping. -/
def processAIRecommendations (now : Nat) :
    Option (List RawAIRec) → Except String (List AIMaintenanceRecommendation)
  | none => .error "Invalid AI response format"
  | some recs => .ok (recs.map (processedAIRec now))

/-- The maintenance-type pool of `generateEnhancedDemoRecommendations`. -/
def demoMaintenanceTypes : List String :=
  ["A_CHECK", "B_CHECK", "C_CHECK", "100_HOUR", "ANNUAL", "PROGRESSIVE", "AD_COMPLIANCE"]

/-- The confidence computation of one demo-recommendation iteration: base
`65`, the schedule-demand / seasonal / data-quality / utilization / risk
adjustments, a `(Math.random() - 0.5) * 15` jitter, then
`Math.max(52, Math.min(94, Math.round(confidence * 10) / 10))`. -/
def demoConfidence (scheduleDemand : ScheduleDemandData)
    (seasonalData : SeasonalData) (maintenanceWindow : String)
    (historyLength : Nat) (utilization : UtilizationData) (jitter : ℚ) : ℚ :=
  let c0 : ℚ := 65
  let c1 :=
    if scheduleDemand.currentPeriodDemand = "LOW" ∧ maintenanceWindow = "EXCELLENT" then c0 + 20
    else if scheduleDemand.currentPeriodDemand = "HIGH" ∧ maintenanceWindow = "POOR" then c0 - 15
    else if scheduleDemand.currentPeriodDemand = "MEDIUM" then c0 + 8
    else c0
  let c2 :=
    if seasonalData.maintenanceWindowOpportunity = "EXCELLENT" then c1 + 15
    else if seasonalData.maintenanceWindowOpportunity = "POOR" then c1 - 12
    else c1
  let c3 :=
    if historyLength > 20 then c2 + 10
    else if historyLength > 10 then c2 + 5
    else c2
  let c4 :=
    if utilization.utilizationPercentage > 70 then c3 + 8
    else if utilization.utilizationPercentage > 40 then c3 + 4
    else c3 - 5
  let c5 :=
    if utilization.maintenanceRisk = "HIGH" then c4 + 8
    else if utilization.maintenanceRisk = "LOW" then c4 - 3
    else c4
  let c6 := c5 + (jitter - 1/2) * 15
  max 52 (min 94 ((jsRound (c6 * 10) : ℚ) / 10))

/-- One record pushed by the demo-generator inner loop, for iteration `i`
with maintenance-type draw `typeDraw` and confidence jitter draw `jitter`. -/
def demoRecommendation (input : MaintenanceRecommendationInput)
    (scheduleDemand : ScheduleDemandData) (seasonalData : SeasonalData)
    (currentSeason : String) (isPeak : Bool) (maintenanceWindow : String)
    (now : Nat) (i : Nat) (typeDraw jitter : ℚ) : AIMaintenanceRecommendation :=
  let aircraft := input.aircraftData
  let utilization := input.utilizationData
  let maintenanceType := demoMaintenanceTypes.getD (jsFloorNat (typeDraw * 7)) "A_CHECK"
  let confidence :=
    demoConfidence scheduleDemand seasonalData maintenanceWindow
      input.flightHistory.length utilization jitter
  let seasonalDescription :=
    (if isPeak then "peak " else "off-peak ") ++ currentSeason.toLower ++ " period"
  let demandDescription := scheduleDemand.currentPeriodDemand.toLower ++ " operational demand"
  let windowDescription := maintenanceWindow.toLower ++ " maintenance window opportunity"
  let reasoning0 :=
    "🤖 Enhanced AI Analysis: Given current " ++ demandDescription ++
      " during this " ++ seasonalDescription ++ ", with " ++ windowDescription ++
      " available. "
  let reasoning1 :=
    reasoning0 ++
      (match seasonalData.weatherFactors with
       | [] => ""
       | w :: _ => "Seasonal factors include " ++ w.toLower ++ ". ")
  let reasoning2 :=
    reasoning1 ++
      (if scheduleDemand.operationalPressure = "HIGH" then
        "High operational pressure suggests limited flexibility for extended maintenance. "
      else "Current schedule allows for planned maintenance windows. ")
  let reasoning :=
    reasoning2 ++
      "Aircraft utilization at " ++ toString utilization.utilizationPercentage ++
      "% with " ++ utilization.trend.toLower ++ " pattern and " ++
      utilization.maintenanceRisk.toLower ++
      " risk profile supports this maintenance timing."
  { tailNumber := aircraft.tailNumber
    maintenanceType := maintenanceType
    priority :=
      if scheduleDemand.operationalPressure = "HIGH" ∧ utilization.maintenanceRisk = "HIGH"
      then "HIGH"
      else if scheduleDemand.operationalPressure = "HIGH" ∨ utilization.maintenanceRisk = "MEDIUM"
      then "MEDIUM" else "LOW"
    confidence := confidence
    reasoning := reasoning
    estimatedCost := getMaintenanceCost maintenanceType
    estimatedDuration := getMaintenanceDuration maintenanceType
    suggestedDate := (now : ℚ) + (7 + i * 14 : ℚ) * (24 * 60 * 60 * 1000)
    riskFactors := getEnhancedRiskFactors utilization maintenanceType scheduleDemand seasonalData
    complianceRequirements := getComplianceRequirements maintenanceType }

/-- The inner `for (let i = 0; i < recCount; i++)` loop of the demo
generator: each iteration draws a maintenance type and a confidence jitter
from the random stream at consecutive counter positions. -/
def demoRecLoop (input : MaintenanceRecommendationInput)
    (scheduleDemand : ScheduleDemandData) (seasonalData : SeasonalData)
    (currentSeason : String) (isPeak : Bool) (maintenanceWindow : String)
    (now : Nat) (r : Nat → ℚ) : Nat → Nat → Nat → List AIMaintenanceRecommendation
  | _, _, 0 => []
  | ctr, i, k + 1 =>
      demoRecommendation input scheduleDemand seasonalData currentSeason isPeak
          maintenanceWindow now i (r ctr) (r (ctr + 1)) ::
        demoRecLoop input scheduleDemand seasonalData currentSeason isPeak
          maintenanceWindow now r (ctr + 2) (i + 1) k

/-- The per-aircraft body of `generateEnhancedDemoRecommendations`:
default schedule-demand and seasonal blocks when the input lacks them (the
default `upcomingBookings` consumes one random draw), then `recCount`
(between 2 and 4, from the utilization percentage) loop iterations. -/
def demoRecsForInput (input : MaintenanceRecommendationInput)
    (month now : Nat) (r : Nat → ℚ) (ctr : Nat) :
    List AIMaintenanceRecommendation × Nat :=
  let currentSeason := getCurrentSeason month
  let isPeak := isPeakSeason month
  let maintenanceWindow := getMaintenanceWindowOpportunity month
  let utilization := input.utilizationData
  let (scheduleDemand, ctr1) :=
    match input.scheduleDemandData with
    | some sd => (sd, ctr)
    | none =>
        ({ currentPeriodDemand := if isPeak then "HIGH" else "MEDIUM"
           upcomingBookings := (jsFloorNat (r ctr * 20) : ℚ) + 10
           averageWeeklyUtilization := utilization.utilizationPercentage
           demandTrend := utilization.trend
           operationalPressure := if isPeak then "HIGH" else "MEDIUM" }, ctr + 1)
  let seasonalData :=
    match input.seasonalData with
    | some sd => sd
    | none =>
        { currentSeason := currentSeason
          peakSeason := isPeak
          seasonalDemandPattern := "BUSINESS_TRAVEL"
          weatherFactors := getSeasonalWeatherFactors currentSeason
          maintenanceWindowOpportunity := maintenanceWindow }
  let recCount := (min 4 (max 2 (jsFloor (utilization.utilizationPercentage / 25)))).toNat
  (demoRecLoop input scheduleDemand seasonalData currentSeason isPeak
      maintenanceWindow now r ctr1 0 recCount,
   ctr1 + 2 * recCount)

/-- The `inputs.forEach` fold of `generateEnhancedDemoRecommendations`. -/
def demoRecsAux (month now : Nat) (r : Nat → ℚ) :
    List MaintenanceRecommendationInput → Nat → List AIMaintenanceRecommendation
  | [], _ => []
  | input :: rest, ctr =>
      let (recs, ctr') := demoRecsForInput input month now r ctr
      recs ++ demoRecsAux month now r rest ctr'

/-- Model of `generateEnhancedDemoRecommendations`: the per-aircraft loop followed by
`recommendations.slice(0, 15)`. -/
def generateEnhancedDemoRecommendations
    (inputs : List MaintenanceRecommendationInput) (month now : Nat)
    (r : Nat → ℚ) : List AIMaintenanceRecommendation :=
  (demoRecsAux month now r inputs 0).take 15

/-! ## Agentic workflow (`src/lib/agentic-workflow.ts`) -/

namespace Agentic

/-- Model of `NotificationRecord`. -/
structure NotificationRecord where
  id : String
  type : String
  recipient : String
  subject : String
  content : String
  sentAt : Nat
  status : String
  retryCount : Nat
deriving DecidableEq, Repr

/-- Model of `TaskAssignment`. -/
structure TaskAssignment where
  id : String
  recommendationId : String
  assigneeType : String
  assigneeName : String
  assigneeEmail : String
  assigneePhone : Option String
  taskDescription : String
  scheduledStart : Nat
  estimatedDuration : ℚ
  location : String
  specialInstructions : Option String
  requiredTools : List String
  requiredParts : Option (List String)
  status : String
  notificationsSent : List NotificationRecord
  signOffRequired : Bool
  digitalChecklistUrl : Option String
deriving DecidableEq, Repr

/-- Model of `CalendarEvent`. -/
structure CalendarEvent where
  id : String
  title : String
  description : String
  start : Nat
  endTime : Nat
  location : String
  attendees : List String
  resources : List String
  calendarSystem : String
  eventId : String
  remindersSent : Bool
deriving DecidableEq, Repr

/-- Model of `ResourceBooking`. -/
structure ResourceBooking where
  id : String
  resourceType : String
  resourceName : String
  bookedFrom : Nat
  bookedUntil : Nat
  bookedBy : String
  recommendationId : String
  status : String
deriving DecidableEq, Repr

/-- Model of `AuditTrailEntry` (the random id suffix is a draw parameter). -/
structure AuditTrailEntry where
  id : String
  timestamp : Nat
  action : String
  actor : String
  actorType : String
  details : String
  complianceRelevant : Bool
deriving DecidableEq, Repr

/-- Model of `WorkOrderCreation`; tasks are carried by their checklist task ids. -/
structure WorkOrderCreation where
  id : String
  recommendationId : String
  workOrderNumber : String
  title : String
  description : String
  aircraftId : String
  maintenanceType : String
  tasks : List String
  assignedMechanic : String
  assignedInspector : String
  scheduledStart : Nat
  estimatedCompletion : Nat
  status : String
  complianceReferences : List String
  auditTrail : List AuditTrailEntry
deriving DecidableEq, Repr

/-- Model of `ComplianceLog`. -/
structure ComplianceLog where
  id : String
  recommendationId : String
  regulationType : String
  regulation : String
  description : String
  complianceAction : String
  loggedAt : Nat
  loggedBy : String
  documentationLinks : List String
  auditReady : Bool
deriving DecidableEq, Repr

/-- The task ids of the checklists in `maintenance-tasks`
(`maintenanceChecklists[...].tasks`, identified by task id). -/
def maintenanceChecklistTasks (checkType : String) : List String :=
  let aCheck := ["a-01", "a-02", "a-03", "a-04", "a-05", "a-06", "a-07", "a-08"]
  let hour100 := ["100-01", "100-02", "100-03", "100-04"]
  let cCheck := ["c-01", "c-02", "c-03", "c-04", "c-05"]
  let annual := ["annual-01", "annual-02", "annual-03"]
  let daily := ["daily-01", "daily-02", "daily-03", "daily-04"]
  let progressive := ["prog-01", "prog-02"]
  if checkType = "A_CHECK" then aCheck
  else if checkType = "100_HOUR" then aCheck ++ hour100
  else if checkType = "C_CHECK" then aCheck ++ cCheck
  else if checkType = "ANNUAL" then aCheck ++ hour100 ++ annual
  else if checkType = "DAILY" then daily
  else if checkType = "PROGRESSIVE" then progressive
  else []

/-- Model of `createTaskAssignments` — two fixed mock assignments. -/
def createTaskAssignments (recommendationId : String) (now : Nat) :
    List TaskAssignment :=
  [ { id := "assign-" ++ toString now ++ "-1"
      recommendationId := recommendationId
      assigneeType := "MECHANIC"
      assigneeName := "John Smith"
      assigneeEmail := "john.smith@example.com"
      assigneePhone := some "+1-555-0123"
      taskDescription := "Lead maintenance inspection"
      scheduledStart := now + 24 * 60 * 60 * 1000
      estimatedDuration := 8
      location := "Hangar A, Bay 2"
      specialInstructions := some "Review AD compliance checklist before starting"
      requiredTools := ["Inspection Tools", "Torque Wrench", "Multimeter"]
      requiredParts := none
      status := "ASSIGNED"
      notificationsSent := []
      signOffRequired := true
      digitalChecklistUrl := none },
    { id := "assign-" ++ toString now ++ "-2"
      recommendationId := recommendationId
      assigneeType := "PARTS_MANAGER"
      assigneeName := "Sarah Johnson"
      assigneeEmail := "sarah.johnson@example.com"
      assigneePhone := none
      taskDescription := "Prepare required parts and consumables"
      scheduledStart := now + 2 * 60 * 60 * 1000
      estimatedDuration := 2
      location := "Parts Department"
      specialInstructions := none
      requiredTools := ["Parts Catalog"]
      requiredParts := some ["Oil Filters", "Spark Plugs", "Aviation Oil"]
      status := "ASSIGNED"
      notificationsSent := []
      signOffRequired := false
      digitalChecklistUrl := none } ]

/-- Model of `generateNotificationContent` (date values rendered via `toString`). -/
def generateNotificationContent (assignment : TaskAssignment) : String :=
  "Dear " ++ assignment.assigneeName ++ ",\n\n" ++
  "You have been assigned a maintenance task:\n\n" ++
  "Task: " ++ assignment.taskDescription ++ "\n" ++
  "Scheduled Start: " ++ toString assignment.scheduledStart ++ "\n" ++
  "Duration: " ++ toString assignment.estimatedDuration ++ " hours\n" ++
  "Location: " ++ assignment.location ++ "\n\n" ++
  "Required Tools: " ++ String.intercalate ", " assignment.requiredTools ++ "\n" ++
  (match assignment.requiredParts with
   | some parts => "Required Parts: " ++ String.intercalate ", " parts
   | none => "") ++ "\n" ++
  (match assignment.specialInstructions with
   | some instructions => "Special Instructions: " ++ instructions
   | none => "") ++ "\n\n" ++
  "Please confirm receipt of this assignment.\n\n" ++
  (match assignment.digitalChecklistUrl with
   | some url => "Digital Checklist: " ++ url
   | none => "") ++ "\n\n" ++
  "Best regards,\nGander Maintenance System"

/-- Model of `sendNotifications`: attach an email notification record (and an SMS
record when a phone number is present) to every assignment. -/
def sendNotifications (assignments : List TaskAssignment) (now : Nat) :
    List TaskAssignment :=
  assignments.map fun assignment =>
    let notifications :=
      [ { id := "notif-" ++ toString now ++ "-" ++ assignment.id
          type := "EMAIL"
          recipient := assignment.assigneeEmail
          subject := "Maintenance Task Assignment - " ++ assignment.taskDescription
          content := generateNotificationContent assignment
          sentAt := now
          status := "SENT"
          retryCount := 0 } ] ++
      (match assignment.assigneePhone with
       | some phone =>
           [ { id := "notif-sms-" ++ toString now ++ "-" ++ assignment.id
               type := "SMS"
               recipient := phone
               subject := "Maintenance Task"
               content := "Task assigned: " ++ assignment.taskDescription ++
                 ". Start: " ++ toString assignment.scheduledStart
               sentAt := now
               status := "SENT"
               retryCount := 0 } ]
       | none => [])
    { assignment with notificationsSent := notifications }

/-- Model of `createCalendarEvent`. -/
def createCalendarEvent (recommendationId : String) (now : Nat) : CalendarEvent :=
  { id := "cal-" ++ toString now
    title := "Aircraft Maintenance - A-Check"
    description := "Scheduled maintenance inspection"
    start := now + 24 * 60 * 60 * 1000
    endTime := now + 32 * 60 * 60 * 1000
    location := "Hangar A, Bay 2"
    attendees := ["john.smith@example.com", "sarah.johnson@example.com"]
    resources := ["Hangar A", "Maintenance Tools", "Ground Power Unit"]
    calendarSystem := "INTERNAL"
    eventId := "maint-" ++ recommendationId
    remindersSent := false }

/-- Model of `bookResources` — a hangar booking and a ground-support booking. -/
def bookResources (recommendationId : String) (now : Nat) : List ResourceBooking :=
  [ { id := "book-" ++ toString now ++ "-1"
      resourceType := "HANGAR"
      resourceName := "Hangar A - Bay 2"
      bookedFrom := now + 24 * 60 * 60 * 1000
      bookedUntil := now + 32 * 60 * 60 * 1000
      bookedBy := "Maintenance Scheduler"
      recommendationId := recommendationId
      status := "RESERVED" },
    { id := "book-" ++ toString now ++ "-2"
      resourceType := "GSE"
      resourceName := "Ground Power Unit #3"
      bookedFrom := now + 24 * 60 * 60 * 1000
      bookedUntil := now + 32 * 60 * 60 * 1000
      bookedBy := "Maintenance Scheduler"
      recommendationId := recommendationId
      status := "RESERVED" } ]

/-- The last six characters of a string (`String(Date.now()).slice(-6)`). -/
def sliceLast6 (s : String) : String :=
  String.mk (s.data.drop (s.data.length - 6))

/-- Model of `createWorkOrder`. -/
def createWorkOrder (recommendationId approvedBy : String) (now year : Nat) :
    WorkOrderCreation :=
  let base : WorkOrderCreation :=
    { id := "wo-" ++ toString now
      recommendationId := recommendationId
      workOrderNumber := "WO-" ++ toString year ++ "-" ++ sliceLast6 (toString now)
      title := "A-Check Inspection - Scheduled Maintenance"
      description := "Comprehensive A-Check inspection per FAA requirements"
      aircraftId := "n123ab"
      maintenanceType := "A_CHECK"
      tasks := maintenanceChecklistTasks "A_CHECK"
      assignedMechanic := "John Smith"
      assignedInspector := "Mike Wilson"
      scheduledStart := now + 24 * 60 * 60 * 1000
      estimatedCompletion := now + 32 * 60 * 60 * 1000
      status := "CREATED"
      complianceReferences := ["FAR 91.409", "FAR 43.13"]
      auditTrail := [] }
  { base with auditTrail :=
      [ { id := "audit-" ++ toString now
          timestamp := now
          action := "WORK_ORDER_CREATED"
          actor := approvedBy
          actorType := "USER"
          details := "Work order created from approved recommendation " ++ recommendationId
          complianceRelevant := true } ] }

/-- Model of `createComplianceLogs` — FAR 135 and FAR 43 log entries. -/
def createComplianceLogs (recommendationId : String) (now : Nat) :
    List ComplianceLog :=
  [ { id := "comp-" ++ toString now ++ "-1"
      recommendationId := recommendationId
      regulationType := "FAR_135"
      regulation := "FAR 135.411"
      description := "Part 135 maintenance schedule compliance"
      complianceAction := "Scheduled A-Check inspection per approved maintenance program"
      loggedAt := now
      loggedBy := "Agentic Workflow System"
      documentationLinks := []
      auditReady := true },
    { id := "comp-" ++ toString now ++ "-2"
      recommendationId := recommendationId
      regulationType := "FAR_43"
      regulation := "FAR 43.13"
      description := "Maintenance performance standards"
      complianceAction := "Work order created with qualified personnel assignments"
      loggedAt := now
      loggedBy := "Agentic Workflow System"
      documentationLinks := []
      auditReady := true } ]

/-- Model of `scheduleReminders`: registers two `setTimeout` callbacks; modelled as
the list of (delay, message) pairs it schedules. -/
def scheduleReminders (recommendationId : String) : List (Nat × String) :=
  let _ := recommendationId
  [ (1000, "24-hour reminder: Maintenance scheduled for tomorrow"),
    (2000, "2-hour reminder: Maintenance starting soon") ]

/-- Everything `executeAutomatedSequence` builds, with its returned triple. -/
structure SequenceResult where
  workflowId : String
  actionsCompleted : Nat
  estimatedCompletion : Nat
  assignments : List TaskAssignment
  calendarEvent : CalendarEvent
  resourceBookings : List ResourceBooking
  workOrder : WorkOrderCreation
  complianceLogs : List ComplianceLog
  reminders : List (Nat × String)
deriving DecidableEq, Repr

/-- Model of `executeAutomatedSequence`: the five automated steps; every step is a
pure record constructor, so the sequence always completes and the
`actionsCompleted` counter always reaches `5`. -/
def executeAutomatedSequence (recommendationId approvedBy : String)
    (now year : Nat) : SequenceResult :=
  let workflowId := "workflow-" ++ toString now
  let actionsCompleted := 0
  let assignments := sendNotifications (createTaskAssignments recommendationId now) now
  let actionsCompleted := actionsCompleted + 1
  let calendarEvent := createCalendarEvent recommendationId now
  let resourceBookings := bookResources recommendationId now
  let actionsCompleted := actionsCompleted + 1
  let workOrder := createWorkOrder recommendationId approvedBy now year
  let actionsCompleted := actionsCompleted + 1
  let complianceLogs := createComplianceLogs recommendationId now
  let actionsCompleted := actionsCompleted + 1
  let reminders := scheduleReminders recommendationId
  let actionsCompleted := actionsCompleted + 1
  { workflowId := workflowId
    actionsCompleted := actionsCompleted
    estimatedCompletion := now + 48 * 60 * 60 * 1000
    assignments := assignments
    calendarEvent := calendarEvent
    resourceBookings := resourceBookings
    workOrder := workOrder
    complianceLogs := complianceLogs
    reminders := reminders }

/-- Return value of `AgenticMaintenanceWorkflow.approveRecommendation`. -/
structure ApprovalResult where
  success : Bool
  workflowId : String
  message : String
  estimatedCompletion : Nat
deriving DecidableEq, Repr

/-- Model of `AgenticMaintenanceWorkflow.approveRecommendation`: log the audit entry,
run the automated sequence, and report success with the completed-actions
count (the `catch` branch only fires when the sequence throws). -/
def approveRecommendation (recommendationId approvedBy : String)
    (approvalNotes : Option String) (now year : Nat) : ApprovalResult :=
  let _ := approvalNotes
  let workflowResult := executeAutomatedSequence recommendationId approvedBy now year
  { success := true
    workflowId := workflowResult.workflowId
    message := "Maintenance workflow initiated successfully. " ++
      toString workflowResult.actionsCompleted ++ " automated actions completed."
    estimatedCompletion := workflowResult.estimatedCompletion }

end Agentic

/-! ## Maintenance-schedule API route (`src/lib/email-config.ts`) -/

/-- A recommendation's `timeWindow`. -/
structure TimeWindow where
  earliest : Nat
  latest : Nat
  optimal : Nat
deriving DecidableEq, Repr

/-- An entry of the in-memory `mockRecommendations` store. -/
structure Recommendation where
  id : String
  aircraftId : String
  tailNumber : String
  maintenanceType : String
  urgency : String
  scheduledDate : Nat
  recommendedDate : Nat
  estimatedCost : ℚ
  estimatedDuration : ℚ
  estimatedDowntime : ℚ
  description : String
  aiConfidence : ℚ
  reasoning : List String
  status : String
  workflowId : Option String
  complianceRequirements : List String
  riskFactors : List String
  affectedAssets : List String
  requiredPersonnel : List String
  timeWindow : TimeWindow
  createdAt : Nat
  approvedBy : Option String
  approvedAt : Option Nat
deriving DecidableEq, Repr

/-- A `mockAircraft` entry (the fields the modelled handlers read). -/
structure Aircraft where
  id : String
  tailNumber : String
  make : String
  model : String
  serialNumber : String
  yearOfManufacture : Nat
  totalAircraftTime : ℚ
  totalCycles : ℚ
  isActive : Bool
deriving DecidableEq, Repr

/-- The fixed three-aircraft `mockAircraft` array. -/
def mockAircraft : List Aircraft :=
  [ { id := "n123ab", tailNumber := "N123AB", make := "Gulfstream", model := "G550"
      serialNumber := "G550-001", yearOfManufacture := 2018
      totalAircraftTime := 2450, totalCycles := 1850, isActive := true },
    { id := "n456cd", tailNumber := "N456CD", make := "Gulfstream", model := "G550"
      serialNumber := "G550-002", yearOfManufacture := 2019
      totalAircraftTime := 2125, totalCycles := 1620, isActive := true },
    { id := "n789xy", tailNumber := "N789XY", make := "Gulfstream", model := "G550"
      serialNumber := "G550-003", yearOfManufacture := 2020
      totalAircraftTime := 1875, totalCycles := 1425, isActive := true } ]

/-- An `ActiveWorkflow`'s `progress` block (randomly-derived timestamps kept
as the exact rational millisecond values handed to `new Date`). -/
structure WorkflowProgress where
  tasksCompleted : Nat
  totalTasks : Nat
  currentTask : String
  nextMilestone : String
  estimatedCompletion : ℚ
deriving DecidableEq, Repr

/-- An `ActiveWorkflow`'s `assignments` block. -/
structure WorkflowAssignments where
  mechanic : String
  inspector : Option String
  supervisor : String
deriving DecidableEq, Repr

/-- An `ActiveWorkflow`'s `resources` block. -/
structure WorkflowResources where
  hangar : String
  equipment : List String
  parts : List String
deriving DecidableEq, Repr

/-- An `ActiveWorkflow`'s `timeline` block. -/
structure WorkflowTimeline where
  started : ℚ
  estimatedCompletion : ℚ
deriving DecidableEq, Repr

/-- An `ActiveWorkflow`'s `notifications` block. -/
structure WorkflowNotifications where
  lastSent : ℚ
  nextReminder : ℚ
  escalationLevel : Nat
deriving DecidableEq, Repr

/-- An entry of the in-memory `mockActiveWorkflows` map. -/
structure ActiveWorkflow where
  id : String
  recommendationId : String
  aircraftId : String
  tailNumber : String
  maintenanceType : String
  status : String
  progress : WorkflowProgress
  assignments : WorkflowAssignments
  resources : WorkflowResources
  timeline : WorkflowTimeline
  notifications : WorkflowNotifications
deriving DecidableEq, Repr

/-- Model of `getCurrentTask`. -/
def getCurrentTask (status maintenanceType : String) : String :=
  if status = "INITIATED" then "Setting up work area and gathering tools"
  else if status = "IN_PROGRESS" then
    "Performing " ++ maintenanceType ++ " inspection procedures"
  else if status = "AWAITING_PARTS" then
    "Waiting for parts delivery - Oil filter and spark plugs"
  else if status = "INSPECTION" then "Final quality inspection and documentation"
  else if status = "DELAYED" then
    "Resolving technical issue - Awaiting manufacturer guidance"
  else "Unknown task"

/-- Model of `getNextMilestone`. -/
def getNextMilestone (status : String) : String :=
  if status = "INITIATED" then "Begin primary inspection procedures"
  else if status = "IN_PROGRESS" then "Complete systems testing"
  else if status = "AWAITING_PARTS" then "Resume work upon parts arrival"
  else if status = "INSPECTION" then "Final sign-off and aircraft release"
  else if status = "DELAYED" then "Technical issue resolution"
  else "Continue work"

/-- Model of `getRequiredEquipment`. -/
def getRequiredEquipment (maintenanceType : String) : List String :=
  if maintenanceType = "A_CHECK" then ["Basic Tool Kit", "Multimeter", "Torque Wrench"]
  else if maintenanceType = "C_CHECK" then
    ["Comprehensive Tool Kit", "Lift Equipment", "Borescope", "Pressure Test Kit"]
  else if maintenanceType = "100_HOUR" then
    ["Engine Tools", "Oil Analysis Kit", "Compression Tester"]
  else if maintenanceType = "ANNUAL" then
    ["Full Inspection Kit", "NDT Equipment", "Calibration Tools"]
  else if maintenanceType = "PROGRESSIVE" then
    ["Progressive Kit", "Documentation System"]
  else ["Standard Tool Kit"]

/-- Model of `createWorkflowFromRecommendation`: statuses and personnel follow the
workflow-map index deterministically; progress counts, parts, timeline and
notification timestamps each consume a `Math.random()` draw (stream
positions `0`–`7`, in source evaluation order). -/
def createWorkflowFromRecommendation (recommendation : Recommendation)
    (index : Nat) (r : Nat → ℚ) (now : Nat) : ActiveWorkflow :=
  let statuses := ["INITIATED", "IN_PROGRESS", "AWAITING_PARTS", "INSPECTION", "DELAYED"]
  let currentStatus := statuses.getD (index % statuses.length) "INITIATED"
  let tasksCompleted := jsFloorNat (r 0 * 8) + 2
  let totalTasks := tasksCompleted + jsFloorNat (r 1 * 5) + 3
  { id := "workflow-" ++ recommendation.id
    recommendationId := recommendation.id
    aircraftId := recommendation.aircraftId
    tailNumber := recommendation.tailNumber
    maintenanceType := recommendation.maintenanceType
    status := currentStatus
    progress :=
      { tasksCompleted := tasksCompleted
        totalTasks := totalTasks
        currentTask := getCurrentTask currentStatus recommendation.maintenanceType
        nextMilestone := getNextMilestone currentStatus
        estimatedCompletion := (now : ℚ) + r 2 * (7 * 24 * 60 * 60 * 1000) }
    assignments :=
      { mechanic := ["John Smith", "Mike Wilson", "Sarah Rodriguez"].getD (index % 3) "John Smith"
        inspector := if currentStatus = "INSPECTION" then some "David Chen" else none
        supervisor := "Tom Anderson" }
    resources :=
      { hangar := "Hangar " ++ ["A", "B", "C"].getD (index % 3) "A" ++
          " - Bay " ++ toString (index % 4 + 1)
        equipment := getRequiredEquipment recommendation.maintenanceType
        parts := ["Oil Filter", "Spark Plugs", "Brake Pads", "Hydraulic Fluid"].take
          (jsFloorNat (r 3 * 3) + 1) }
    timeline :=
      { started := (now : ℚ) - r 4 * (3 * 24 * 60 * 60 * 1000)
        estimatedCompletion := (now : ℚ) + r 5 * (7 * 24 * 60 * 60 * 1000) }
    notifications :=
      { lastSent := (now : ℚ) - r 6 * (6 * 60 * 60 * 1000)
        nextReminder := (now : ℚ) + 4 * 60 * 60 * 1000
        escalationLevel := jsFloorNat (r 7 * 3) } }

/-- The `baseline-<aircraft>-100hour` recommendation seeded by
`getAIRecommendations` when the store is empty. -/
def baseline100Hour (aircraft : Aircraft) (now : Nat) : Recommendation :=
  { id := "baseline-" ++ aircraft.id ++ "-100hour"
    aircraftId := aircraft.id
    tailNumber := aircraft.tailNumber
    maintenanceType := "100_HOUR"
    urgency := "MEDIUM"
    scheduledDate := now
    recommendedDate := now
    estimatedCost := 4000
    estimatedDuration := 8
    estimatedDowntime := 8
    description := "100-hour inspection for " ++ aircraft.tailNumber
    aiConfidence := 4/5
    reasoning := ["Recurring 100-hour maintenance interval due based on flight hours"]
    status := "PENDING"
    workflowId := none
    complianceRequirements := ["FAR 91.409"]
    riskFactors := ["Routine maintenance"]
    affectedAssets := [aircraft.tailNumber]
    requiredPersonnel := ["Certified Mechanic", "Inspector"]
    timeWindow :=
      { earliest := now
        latest := now + 14 * 24 * 60 * 60 * 1000
        optimal := now + 7 * 24 * 60 * 60 * 1000 }
    createdAt := now
    approvedBy := none
    approvedAt := none }

/-- The `baseline-<aircraft>-annual` recommendation seeded by
`getAIRecommendations` when the store is empty. -/
def baselineAnnual (aircraft : Aircraft) (now : Nat) : Recommendation :=
  { id := "baseline-" ++ aircraft.id ++ "-annual"
    aircraftId := aircraft.id
    tailNumber := aircraft.tailNumber
    maintenanceType := "ANNUAL"
    urgency := "HIGH"
    scheduledDate := now + 30 * 24 * 60 * 60 * 1000
    recommendedDate := now + 30 * 24 * 60 * 60 * 1000
    estimatedCost := 18000
    estimatedDuration := 36
    estimatedDowntime := 36
    description := "Annual inspection for " ++ aircraft.tailNumber
    aiConfidence := 19/20
    reasoning := ["Annual inspection required by FAR regulations"]
    status := "PENDING"
    workflowId := none
    complianceRequirements := ["FAR 91.409", "FAR 43.9"]
    riskFactors := ["Critical maintenance"]
    affectedAssets := [aircraft.tailNumber]
    requiredPersonnel := ["Certified Mechanic", "Inspector", "Supervisor"]
    timeWindow :=
      { earliest := now + 21 * 24 * 60 * 60 * 1000
        latest := now + 45 * 24 * 60 * 60 * 1000
        optimal := now + 30 * 24 * 60 * 60 * 1000 }
    createdAt := now
    approvedBy := none
    approvedAt := none }

/-- The baseline seeding `mockAircraft.flatMap(...)`: two recurring
recommendations per aircraft. -/
def baselineRecommendations (now : Nat) : List Recommendation :=
  mockAircraft.flatMap fun aircraft => [baseline100Hour aircraft now, baselineAnnual aircraft now]

/-- Response data (and updated store) of the `ai-recommendations` GET
handler. -/
structure GetRecsResult where
  recommendations : List Recommendation
  totalCount : Nat
  pendingApprovals : Nat
  activeWorkflows : Nat
  newStore : List Recommendation
deriving DecidableEq, Repr

/-- Model of `getAIRecommendations`: seed the baseline recommendations into the store
when it is empty, then apply the optional `tailNumber` / `status` filters
and report the counts over the filtered list. -/
def getAIRecommendations (tailNumber status : Option String)
    (store : List Recommendation) (now : Nat) : GetRecsResult :=
  let (filtered0, newStore) :=
    if store.isEmpty then
      (baselineRecommendations now, store ++ baselineRecommendations now)
    else ([] ++ store, store)
  let filtered1 :=
    if jsTruthy tailNumber then
      filtered0.filter fun rec => rec.tailNumber = tailNumber.getD ""
    else filtered0
  let filtered2 :=
    if jsTruthy status then
      filtered1.filter fun rec => rec.status = status.getD ""
    else filtered1
  { recommendations := filtered2
    totalCount := filtered2.length
    pendingApprovals := (filtered2.filter fun rec => rec.status = "PENDING").length
    activeWorkflows :=
      (filtered2.filter fun rec =>
        ["APPROVED", "SCHEDULED", "IN_PROGRESS"].contains rec.status).length
    newStore := newStore }

/-- Response (and post-state) of the `approve-recommendation` POST handler. -/
structure ApproveRouteResult where
  status : Nat
  success : Bool
  error : Option String
  recs : List Recommendation
  workflows : List (String × ActiveWorkflow)
  emailedRecipients : List EmailRecipient
  emailSummary : Option NotificationSummary
deriving Repr

/-- Model of `approveRecommendation` (the POST route handler): validate the body,
look up the recommendation and its aircraft (404 on either miss), mutate the
found recommendation's status/approver/timestamp in place, store the derived
workflow under `workflow-<id>`, run the agentic sequence and email the
default recipients for the maintenance type.  `sendOutcomes` is the
transport oracle for the per-recipient sends. -/
def approveRecommendationRoute (recommendationId approvedBy approvalNotes : Option String)
    (recs : List Recommendation) (workflows : List (String × ActiveWorkflow))
    (now year : Nat) (r : Nat → ℚ) (sendOutcomes : Nat → SendOutcome) :
    ApproveRouteResult :=
  if ¬(jsTruthy recommendationId ∧ jsTruthy approvedBy) then
    { status := 400, success := false
      error := some "recommendationId and approvedBy are required"
      recs := recs, workflows := workflows
      emailedRecipients := [], emailSummary := none }
  else
    let rid := recommendationId.getD ""
    match recs.find? (fun rec => rec.id = rid) with
    | none =>
        { status := 404, success := false, error := some "Recommendation not found"
          recs := recs, workflows := workflows
          emailedRecipients := [], emailSummary := none }
    | some recommendation =>
        match mockAircraft.find? (fun a => a.id = recommendation.aircraftId) with
        | none =>
            { status := 404, success := false, error := some "Aircraft not found"
              recs := recs, workflows := workflows
              emailedRecipients := [], emailSummary := none }
        | some _aircraft =>
            let approve := fun (rec : Recommendation) =>
              { rec with status := "APPROVED", approvedBy := approvedBy,
                         approvedAt := some now }
            let recs' := updateFirst (fun rec => rec.id = rid) approve recs
            let recommendation' := approve recommendation
            let workflowId := "workflow-" ++ rid
            let activeWorkflow :=
              createWorkflowFromRecommendation recommendation' workflows.length r now
            let workflows' := setKey workflows workflowId activeWorkflow
            let workflowResult :=
              Agentic.approveRecommendation rid (approvedBy.getD "") approvalNotes now year
            let recipients := getDefaultRecipients recommendation'.maintenanceType
            let emailResults :=
              sendMaintenanceNotificationEmails
                (recipients.enum.map fun p => (p.2, sendOutcomes p.1))
            { status := 200, success := workflowResult.success, error := none
              recs := recs', workflows := workflows'
              emailedRecipients := recipients, emailSummary := some emailResults }

/-- Response (and post-state) of the `reject-recommendation` POST handler. -/
structure RejectRouteResult where
  status : Nat
  success : Bool
  error : Option String
  recs : List Recommendation
  workflows : List (String × ActiveWorkflow)
  emailedRecipients : List EmailRecipient
deriving Repr

/-- Model of `rejectRecommendation` (the POST route handler): validate the body, look
up the recommendation (404 on a miss) and set its status to `REJECTED`; no
workflow is stored and no email is sent. -/
def rejectRecommendationRoute (recommendationId rejectedBy rejectionReason : Option String)
    (recs : List Recommendation) (workflows : List (String × ActiveWorkflow)) :
    RejectRouteResult :=
  let _ := rejectionReason
  if ¬(jsTruthy recommendationId ∧ jsTruthy rejectedBy) then
    { status := 400, success := false
      error := some "recommendationId and rejectedBy are required"
      recs := recs, workflows := workflows, emailedRecipients := [] }
  else
    let rid := recommendationId.getD ""
    match recs.find? (fun rec => rec.id = rid) with
    | none =>
        { status := 404, success := false, error := some "Recommendation not found"
          recs := recs, workflows := workflows, emailedRecipients := [] }
    | some _ =>
        { status := 200, success := true, error := none
          recs := updateFirst (fun rec => rec.id = rid)
            (fun rec => { rec with status := "REJECTED" }) recs
          workflows := workflows, emailedRecipients := [] }

/-! ## Proof-support definitions -/

/-- Numeric value of a decimal digit character (inverse of
`decimalDigitChar`, used to invert `natDigits`). -/
def decimalDigitVal (c : Char) : Nat :=
  if c = '0' then 0 else if c = '1' then 1 else if c = '2' then 2
  else if c = '3' then 3 else if c = '4' then 4 else if c = '5' then 5
  else if c = '6' then 6 else if c = '7' then 7 else if c = '8' then 8
  else 9

/-- Value of a most-significant-first decimal digit list. -/
def natVal (l : List Char) : Nat :=
  l.foldl (fun a c => a * 10 + decimalDigitVal c) 0

/-- A sample store entry used to instantiate the route-handler theorems:
the baseline 100-hour recommendation of the first mock aircraft at epoch 0. -/
def sampleRecommendation : Recommendation :=
  baseline100Hour
    { id := "n123ab", tailNumber := "N123AB", make := "Gulfstream", model := "G550"
      serialNumber := "G550-001", yearOfManufacture := 2018
      totalAircraftTime := 2450, totalCycles := 1850, isActive := true } 0


/-! ## Helper lemmas -/

theorem find?_append_cons {α} (p : α → Bool) (l₁ l₂ : List α) (x : α)
    (h₁ : ∀ y ∈ l₁, p y = false) (hx : p x = true) :
    (l₁ ++ x :: l₂).find? p = some x := by
  induction l₁ with
  | nil => simp [List.find?, hx]
  | cons a as ih =>
      have ha : p a = false := h₁ a (by simp)
      rw [List.cons_append]
      simp only [List.find?, ha]
      exact ih (fun y hy => h₁ y (List.mem_cons_of_mem _ hy))

theorem updateFirst_append_cons {α} (p : α → Bool) (f : α → α) (l₁ l₂ : List α)
    (x : α) (h₁ : ∀ y ∈ l₁, p y = false) (hx : p x = true) :
    updateFirst p f (l₁ ++ x :: l₂) = l₁ ++ f x :: l₂ := by
  induction l₁ with
  | nil => simp [updateFirst, hx]
  | cons a as ih =>
      have ha : p a = false := h₁ a (by simp)
      rw [List.cons_append, updateFirst, ha]
      simp only [Bool.false_eq_true, if_false, List.cons_append]
      exact congrArg (a :: ·) (ih (fun y hy => h₁ y (List.mem_cons_of_mem _ hy)))

theorem lookupKey_setKey_self {α} (l : List (String × α)) (k : String) (v : α) :
    lookupKey (setKey l k v) k = some v := by
  induction l with
  | nil => simp [setKey, lookupKey, List.find?]
  | cons p rest ih =>
      by_cases h : p.1 = k
      · simp [setKey, h, lookupKey, List.find?]
      · simp only [setKey, h, if_false, lookupKey, List.find?, decide_eq_true_eq]
        simpa [lookupKey, h] using ih

theorem lookupKey_setKey_ne {α} (l : List (String × α)) (k k' : String) (v : α)
    (h : k' ≠ k) : lookupKey (setKey l k v) k' = lookupKey l k' := by
  have hkk : ¬ (k = k') := fun hc => h hc.symm
  induction l with
  | nil => simp [setKey, lookupKey, List.find?, hkk]
  | cons p rest ih =>
      by_cases hp : p.1 = k
      · have hpk : ¬ p.1 = k' := by rw [hp]; exact hkk
        simp [setKey, hp, lookupKey, List.find?, hkk, hpk]
      · by_cases hpk : p.1 = k'
        · simp [setKey, hp, lookupKey, List.find?, hpk, h]
        · have ih' := ih
          simp only [lookupKey] at ih'
          simp [setKey, hp, lookupKey, List.find?, hpk, ih']

theorem setKey_length_fresh {α} (l : List (String × α)) (k : String) (v : α)
    (h : k ∉ l.map Prod.fst) : (setKey l k v).length = l.length + 1 := by
  induction l with
  | nil => simp [setKey]
  | cons p rest ih =>
      have hp : ¬ p.1 = k := by
        intro hc; exact h (by simp [hc])
      simp only [setKey, hp, if_false, List.length_cons]
      have : k ∉ rest.map Prod.fst := by
        intro hc; exact h (by simp at hc ⊢; exact Or.inr hc)
      rw [ih this]

theorem decimalDigitChar_ne_dash (d : Nat) : decimalDigitChar d ≠ '-' := by
  unfold decimalDigitChar
  split_ifs <;> decide

theorem dash_not_mem_natDigits (n : Nat) : '-' ∉ natDigits n := by
  induction n using Nat.strong_induction_on with
  | _ n ih =>
      rw [natDigits]
      split
      · simp [fun d => (decimalDigitChar_ne_dash d).symm]
      · intro hmem
        rcases List.mem_append.mp hmem with hmem | hmem
        · exact ih (n / 10) (Nat.div_lt_self (by omega) (by omega)) hmem
        · exact (decimalDigitChar_ne_dash (n % 10)) (List.mem_singleton.mp hmem).symm

theorem base36Char_ne_dash (d : Nat) : base36Char d ≠ '-' := by
  have hb : ∀ i, i < 36 → base36Chars.getD i '0' ≠ '-' := by decide
  exact hb (d % 36) (Nat.mod_lt _ (by omega))

theorem dash_not_mem_randSuffix (seed : Nat) : '-' ∉ randSuffix seed := by
  intro hmem
  rcases List.mem_map.mp hmem with ⟨i, _, hi⟩
  exact base36Char_ne_dash _ hi

theorem decimalDigitVal_decimalDigitChar (d : Nat) (h : d < 10) :
    decimalDigitVal (decimalDigitChar d) = d := by
  interval_cases d <;> decide

theorem natVal_natDigits (n : Nat) : natVal (natDigits n) = n := by
  induction n using Nat.strong_induction_on with
  | _ n ih =>
      rw [natDigits]
      split
      · next h =>
          simp [natVal, decimalDigitVal_decimalDigitChar n h]
      · next h =>
          have hrec := ih (n / 10) (Nat.div_lt_self (by omega) (by omega))
          simp only [natVal, List.foldl_append, List.foldl_cons, List.foldl_nil]
          simp only [natVal] at hrec
          rw [hrec, decimalDigitVal_decimalDigitChar (n % 10) (Nat.mod_lt _ (by omega))]
          omega

theorem natDigits_injective {n₁ n₂ : Nat} (h : natDigits n₁ = natDigits n₂) :
    n₁ = n₂ := by
  have := natVal_natDigits n₁
  rw [h, natVal_natDigits] at this
  exact this.symm

theorem sep_append_inj {α} (sep : α) :
    ∀ (a₁ a₂ s₁ s₂ : List α), sep ∉ a₁ → sep ∉ a₂ →
      a₁ ++ sep :: s₁ = a₂ ++ sep :: s₂ → a₁ = a₂ ∧ s₁ = s₂ := by
  intro a₁
  induction a₁ with
  | nil =>
      intro a₂ s₁ s₂ _ h₂ heq
      cases a₂ with
      | nil => simpa using heq
      | cons b bs =>
          simp only [List.nil_append, List.cons_append, List.cons.injEq] at heq
          exact absurd (heq.1 ▸ List.mem_cons_self b bs) h₂
  | cons a as ih =>
      intro a₂ s₁ s₂ h₁ h₂ heq
      cases a₂ with
      | nil =>
          simp only [List.cons_append, List.nil_append, List.cons.injEq] at heq
          exact absurd (heq.1 ▸ List.mem_cons_self a as) h₁
      | cons b bs =>
          simp only [List.cons_append, List.cons.injEq] at heq
          have := ih bs s₁ s₂ (fun hc => h₁ (List.mem_cons_of_mem _ hc))
            (fun hc => h₂ (List.mem_cons_of_mem _ hc)) heq.2
          exact ⟨by rw [heq.1, this.1], this.2⟩

theorem mkSimMessageId_inj {n₁ n₂ : Nat} {s₁ s₂ : List Char}
    (h : mkSimMessageId n₁ s₁ = mkSimMessageId n₂ s₂) : n₁ = n₂ ∧ s₁ = s₂ := by
  have hd := congrArg String.data h
  simp only [mkSimMessageId] at hd
  have hlist : natDigits n₁ ++ '-' :: s₁ = natDigits n₂ ++ '-' :: s₂ := by
    rw [List.append_assoc, List.append_assoc] at hd
    exact List.append_cancel_left hd
  have := sep_append_inj '-' (natDigits n₁) (natDigits n₂) s₁ s₂
    (dash_not_mem_natDigits n₁) (dash_not_mem_natDigits n₂) hlist
  exact ⟨natDigits_injective this.1, this.2⟩

theorem notifyLoop_spec (sends : List (EmailRecipient × SendOutcome)) :
    (notifyLoop sends).1 = sends.countP (fun p => p.2.isSuccess) ∧
      (notifyLoop sends).1 + (notifyLoop sends).2.length = sends.length := by
  induction sends with
  | nil => simp [notifyLoop]
  | cons p rest ih =>
      obtain ⟨r, o⟩ := p
      obtain ⟨ih1, ih2⟩ := ih
      cases o with
      | success m =>
          have hc : List.countP (fun p => p.2.isSuccess)
              ((r, SendOutcome.success m) :: rest) =
              List.countP (fun p => p.2.isSuccess) rest + 1 := by
            simp [List.countP_cons, SendOutcome.isSuccess]
          refine ⟨?_, ?_⟩
          · simp only [notifyLoop, hc]; omega
          · simp only [notifyLoop, List.length_cons]; omega
      | failure e =>
          have hc : List.countP (fun p => p.2.isSuccess)
              ((r, SendOutcome.failure e) :: rest) =
              List.countP (fun p => p.2.isSuccess) rest := by
            simp [List.countP_cons, SendOutcome.isSuccess]
          refine ⟨?_, ?_⟩
          · simp only [notifyLoop, hc]; omega
          · simp only [notifyLoop, List.length_cons]; omega
      | thrown e =>
          have hc : List.countP (fun p => p.2.isSuccess)
              ((r, SendOutcome.thrown e) :: rest) =
              List.countP (fun p => p.2.isSuccess) rest := by
            simp [List.countP_cons, SendOutcome.isSuccess]
          refine ⟨?_, ?_⟩
          · simp only [notifyLoop, hc]; omega
          · simp only [notifyLoop, List.length_cons]; omega

/-- C3: for every recipient list and per-recipient outcomes, the dispatcher
summary's `sentEmails` equals the number of sends that returned success,
`sentEmails + failures.length` equals the number of recipients, and the
`success` flag holds exactly when no failures were collected. -/
theorem sendMaintenanceNotificationEmails_accounting
    (sends : List (EmailRecipient × SendOutcome)) :
    (sendMaintenanceNotificationEmails sends).sentEmails =
        sends.countP (fun p => p.2.isSuccess) ∧
      (sendMaintenanceNotificationEmails sends).sentEmails +
          (sendMaintenanceNotificationEmails sends).failures.length = sends.length ∧
      ((sendMaintenanceNotificationEmails sends).success = true ↔
        (sendMaintenanceNotificationEmails sends).failures = []) := by
  have h := notifyLoop_spec sends
  refine ⟨h.1, h.2, ?_⟩
  simp [sendMaintenanceNotificationEmails, List.length_eq_zero]

theorem optimizeScheduleLoop_fixed (config : SchedulingConfig)
    (patterns : List UtilizationPattern) (flights : List FlightPlan)
    (n : Nat) (s : List MaintenanceScheduleItem) :
    optimizeScheduleLoop config patterns flights n
        (s, evaluateSchedule config s patterns flights) =
      (s, evaluateSchedule config s patterns flights) := by
  induction n with
  | zero => rfl
  | succ n ih =>
      simp only [optimizeScheduleLoop, mutateSchedule, lt_irrefl, if_false]
      exact ih

/-- C5: the "genetic" optimizer returns its input schedule unchanged —
`mutateSchedule` is the identity, the four score functions return the fixed
constants `0.8`, `0.9`, `0.85`, `0.95` (so a mutated candidate never scores
strictly higher than the incumbent), and the 100-iteration loop therefore
never replaces the initial schedule. -/
theorem optimizeSchedule_identity (config : SchedulingConfig)
    (predictedMaintenance : List MaintenanceScheduleItem)
    (upcomingFlights : List FlightPlan) (patterns : List UtilizationPattern)
    (currentWorkOrders : List WorkOrder) (s : List MaintenanceScheduleItem) :
    optimizeSchedule config predictedMaintenance upcomingFlights patterns
        currentWorkOrders = predictedMaintenance ∧
      mutateSchedule s patterns = s ∧
      calculateCostScore s = 4/5 ∧
      calculateAvailabilityScore s patterns = 9/10 ∧
      calculateUtilizationScore s patterns = 17/20 ∧
      calculateSafetyScore s = 19/20 ∧
      evaluateSchedule config (mutateSchedule predictedMaintenance patterns)
          patterns upcomingFlights =
        evaluateSchedule config predictedMaintenance patterns upcomingFlights := by
  refine ⟨?_, rfl, rfl, rfl, rfl, rfl, rfl⟩
  show (optimizeScheduleLoop config patterns upcomingFlights 100
      (predictedMaintenance,
        evaluateSchedule config predictedMaintenance patterns upcomingFlights)).1 =
    predictedMaintenance
  rw [optimizeScheduleLoop_fixed]

/-- C9: `AgenticMaintenanceWorkflow.approveRecommendation` succeeds for every
recommendation id and approver: every step of `executeAutomatedSequence` is
a pure record constructor that cannot throw, so the failure branch is
unreachable, `actionsCompleted` always reaches `5`, and the returned message
always reports five completed automated actions. -/
theorem agentic_approveRecommendation_always_succeeds
    (recommendationId approvedBy : String) (approvalNotes : Option String)
    (now year : Nat) :
    (Agentic.approveRecommendation recommendationId approvedBy approvalNotes
        now year).success = true ∧
      (Agentic.executeAutomatedSequence recommendationId approvedBy now
          year).actionsCompleted = 5 ∧
      (Agentic.approveRecommendation recommendationId approvedBy approvalNotes
          now year).message =
        "Maintenance workflow initiated successfully. 5 automated actions completed." := by
  refine ⟨rfl, rfl, ?_⟩
  show "Maintenance workflow initiated successfully. " ++
      toString (5 : Nat) ++ " automated actions completed." = _
  rfl

/-- C2: approving an id that does not occur in the store returns a 404
not-found error, leaves every recommendation unchanged, and adds nothing to
the workflow map. -/
theorem approveRecommendationRoute_unknown_id
    (recs : List Recommendation) (workflows : List (String × ActiveWorkflow))
    (rid approver : String) (notes : Option String) (now year : Nat)
    (r : Nat → ℚ) (sendOutcomes : Nat → SendOutcome)
    (hfind : recs.find? (fun rec => rec.id = rid) = none)
    (hrid : rid ≠ "") (happr : approver ≠ "") :
    (approveRecommendationRoute (some rid) (some approver) notes recs workflows
        now year r sendOutcomes).status = 404 ∧
      (approveRecommendationRoute (some rid) (some approver) notes recs workflows
          now year r sendOutcomes).error = some "Recommendation not found" ∧
      (approveRecommendationRoute (some rid) (some approver) notes recs workflows
          now year r sendOutcomes).recs = recs ∧
      (approveRecommendationRoute (some rid) (some approver) notes recs workflows
          now year r sendOutcomes).workflows = workflows := by
  simp [approveRecommendationRoute, jsTruthy, hrid, happr, hfind]

/-- Witness for C2 at a concrete store: the empty store never contains the
id `missing-rec`, so approval 404s and changes nothing. -/
theorem approveRecommendationRoute_unknown_id_witness :
    (approveRecommendationRoute (some "missing-rec") (some "Jane Doe") none []
        [] 0 2024 (fun _ => 0) (fun _ => SendOutcome.success "m")).status = 404 ∧
      (approveRecommendationRoute (some "missing-rec") (some "Jane Doe") none []
          [] 0 2024 (fun _ => 0) (fun _ => SendOutcome.success "m")).error =
        some "Recommendation not found" ∧
      (approveRecommendationRoute (some "missing-rec") (some "Jane Doe") none []
          [] 0 2024 (fun _ => 0) (fun _ => SendOutcome.success "m")).recs = [] ∧
      (approveRecommendationRoute (some "missing-rec") (some "Jane Doe") none []
          [] 0 2024 (fun _ => 0) (fun _ => SendOutcome.success "m")).workflows = [] :=
  approveRecommendationRoute_unknown_id [] [] "missing-rec" "Jane Doe" none 0 2024
    (fun _ => 0) (fun _ => SendOutcome.success "m") (by simp [List.find?])
    (by decide) (by decide)

/-- C4: rejecting a recommendation that is present in the store sets that
recommendation's status to `REJECTED` and changes nothing else — all its
other fields and all other store entries are untouched, the workflow map is
unchanged, and no email send is invoked. -/
theorem rejectRecommendationRoute_rejects
    (l₁ l₂ : List Recommendation) (rec : Recommendation) (rid rejecter : String)
    (reason : Option String) (workflows : List (String × ActiveWorkflow))
    (hl₁ : ∀ y ∈ l₁, y.id ≠ rid) (hid : rec.id = rid)
    (hrid : rid ≠ "") (hrej : rejecter ≠ "") :
    (rejectRecommendationRoute (some rid) (some rejecter) reason
        (l₁ ++ rec :: l₂) workflows).status = 200 ∧
      (rejectRecommendationRoute (some rid) (some rejecter) reason
          (l₁ ++ rec :: l₂) workflows).recs =
        l₁ ++ { rec with status := "REJECTED" } :: l₂ ∧
      (rejectRecommendationRoute (some rid) (some rejecter) reason
          (l₁ ++ rec :: l₂) workflows).workflows = workflows ∧
      (rejectRecommendationRoute (some rid) (some rejecter) reason
          (l₁ ++ rec :: l₂) workflows).emailedRecipients = [] := by
  have hp : ∀ y ∈ l₁, (fun rec => decide (rec.id = rid)) y = false := by
    intro y hy
    simpa using hl₁ y hy
  have hfind := find?_append_cons (fun rec => decide (rec.id = rid)) l₁ l₂ rec hp
    (by simpa using hid)
  have hupd := updateFirst_append_cons (fun rec => decide (rec.id = rid))
    (fun rec => { rec with status := "REJECTED" }) l₁ l₂ rec hp (by simpa using hid)
  simp [rejectRecommendationRoute, jsTruthy, hrid, hrej, hfind, hupd]

/-- Witness for C4: rejecting the sample PENDING baseline recommendation in
a one-element store flips its status to `REJECTED` and touches nothing else. -/
theorem rejectRecommendationRoute_rejects_witness :
    (rejectRecommendationRoute (some "baseline-n123ab-100hour")
        (some "Jane Doe") none [sampleRecommendation] []).status = 200 ∧
      (rejectRecommendationRoute (some "baseline-n123ab-100hour")
          (some "Jane Doe") none [sampleRecommendation] []).recs =
        [{ sampleRecommendation with status := "REJECTED" }] ∧
      (rejectRecommendationRoute (some "baseline-n123ab-100hour")
          (some "Jane Doe") none [sampleRecommendation] []).workflows = [] ∧
      (rejectRecommendationRoute (some "baseline-n123ab-100hour")
          (some "Jane Doe") none [sampleRecommendation] []).emailedRecipients = [] :=
  rejectRecommendationRoute_rejects [] [] sampleRecommendation
    "baseline-n123ab-100hour" "Jane Doe" none [] (by simp) (by decide)
    (by decide) (by decide)

/-- C1 (amended): approving a PENDING store entry whose `aircraftId` matches
a mock aircraft sets its status to `APPROVED`, records `approvedBy` and
`approvedAt`, and stores under the derived key `workflow-<id>` a workflow
whose `recommendationId` is the approved id, leaving every other workflow
key unchanged and growing the map by exactly one entry when the key is
fresh.  (The aircraft hypothesis is forced: a store entry with an unknown
`aircraftId` is answered with 404 `Aircraft not found` and no mutation.) -/
theorem approveRecommendationRoute_approves
    (l₁ l₂ : List Recommendation) (rec : Recommendation) (rid approver : String)
    (notes : Option String) (workflows : List (String × ActiveWorkflow))
    (now year : Nat) (r : Nat → ℚ) (sendOutcomes : Nat → SendOutcome)
    (hl₁ : ∀ y ∈ l₁, y.id ≠ rid) (hid : rec.id = rid)
    (hpending : rec.status = "PENDING")
    (haircraft : (mockAircraft.find? (fun a => a.id = rec.aircraftId)).isSome = true)
    (hrid : rid ≠ "") (happr : approver ≠ "") :
    (approveRecommendationRoute (some rid) (some approver) notes
        (l₁ ++ rec :: l₂) workflows now year r sendOutcomes).status = 200 ∧
      (approveRecommendationRoute (some rid) (some approver) notes
          (l₁ ++ rec :: l₂) workflows now year r sendOutcomes).recs =
        l₁ ++ { rec with status := "APPROVED", approvedBy := some approver,
                         approvedAt := some now } :: l₂ ∧
      lookupKey (approveRecommendationRoute (some rid) (some approver) notes
          (l₁ ++ rec :: l₂) workflows now year r sendOutcomes).workflows
          ("workflow-" ++ rid) =
        some (createWorkflowFromRecommendation
          { rec with status := "APPROVED", approvedBy := some approver,
                     approvedAt := some now } workflows.length r now) ∧
      (lookupKey (approveRecommendationRoute (some rid) (some approver) notes
          (l₁ ++ rec :: l₂) workflows now year r sendOutcomes).workflows
          ("workflow-" ++ rid)).map ActiveWorkflow.recommendationId = some rid ∧
      (∀ k, k ≠ "workflow-" ++ rid →
        lookupKey (approveRecommendationRoute (some rid) (some approver) notes
            (l₁ ++ rec :: l₂) workflows now year r sendOutcomes).workflows k =
          lookupKey workflows k) ∧
      (("workflow-" ++ rid) ∉ workflows.map Prod.fst →
        (approveRecommendationRoute (some rid) (some approver) notes
            (l₁ ++ rec :: l₂) workflows now year r sendOutcomes).workflows.length =
          workflows.length + 1) := by
  have hp : ∀ y ∈ l₁, (fun rec => decide (rec.id = rid)) y = false := by
    intro y hy
    simpa using hl₁ y hy
  have hfind := find?_append_cons (fun rec => decide (rec.id = rid)) l₁ l₂ rec hp
    (by simpa using hid)
  have hupd := updateFirst_append_cons (fun rec => decide (rec.id = rid))
    (fun rec : Recommendation =>
      { rec with status := "APPROVED", approvedBy := some approver,
                 approvedAt := some now })
    l₁ l₂ rec hp (by simpa using hid)
  obtain ⟨a, ha⟩ := Option.isSome_iff_exists.mp haircraft
  simp only [approveRecommendationRoute, jsTruthy, Option.getD_some, hfind, ha, hupd]
  have hcond : ¬¬((decide (rid ≠ "") = true) ∧ (decide (approver ≠ "") = true)) := by
    simp [hrid, happr]
  rw [if_neg hcond]
  refine ⟨rfl, rfl, ?_, ?_, ?_, ?_⟩
  · exact lookupKey_setKey_self workflows _ _
  · rw [lookupKey_setKey_self workflows _ _]
    simp [createWorkflowFromRecommendation, hid]
  · intro k hk
    exact lookupKey_setKey_ne workflows _ k _ hk
  · intro hfresh
    exact setKey_length_fresh workflows _ _ hfresh

/-- Witness for C1 at a concrete input: approving the sample PENDING
baseline recommendation (aircraft `n123ab`) in a one-element store. -/
theorem approveRecommendationRoute_approves_witness :
    (approveRecommendationRoute (some "baseline-n123ab-100hour") (some "Jane Doe")
        none [sampleRecommendation] [] 0 2024 (fun _ => 0)
        (fun _ => SendOutcome.success "m")).status = 200 ∧
      (approveRecommendationRoute (some "baseline-n123ab-100hour") (some "Jane Doe")
          none [sampleRecommendation] [] 0 2024 (fun _ => 0)
          (fun _ => SendOutcome.success "m")).recs =
        [{ sampleRecommendation with status := "APPROVED",
                                     approvedBy := some "Jane Doe",
                                     approvedAt := some 0 }] ∧
      (lookupKey (approveRecommendationRoute (some "baseline-n123ab-100hour")
          (some "Jane Doe") none [sampleRecommendation] [] 0 2024 (fun _ => 0)
          (fun _ => SendOutcome.success "m")).workflows
          ("workflow-" ++ "baseline-n123ab-100hour")).map
        ActiveWorkflow.recommendationId = some "baseline-n123ab-100hour" ∧
      (approveRecommendationRoute (some "baseline-n123ab-100hour") (some "Jane Doe")
          none [sampleRecommendation] [] 0 2024 (fun _ => 0)
          (fun _ => SendOutcome.success "m")).workflows.length = 0 + 1 :=
  have h := approveRecommendationRoute_approves [] [] sampleRecommendation
    "baseline-n123ab-100hour" "Jane Doe" none [] 0 2024 (fun _ => 0)
    (fun _ => SendOutcome.success "m") (by simp) (by decide) (by decide)
    (by decide) (by decide) (by decide)
  ⟨h.1, h.2.1, h.2.2.2.1, h.2.2.2.2.2 (by simp)⟩

/-- Counterexample to C1 as stated: a PENDING store entry whose
`aircraftId` (`n999zz`, as produced by the AI-refresh path for an unknown
tail number) matches no mock aircraft is answered with 404 and is neither
approved nor given a workflow. -/
theorem approveRecommendationRoute_counterexample :
    (approveRecommendationRoute (some "baseline-n123ab-100hour") (some "Jane Doe")
        none [{ sampleRecommendation with aircraftId := "n999zz" }] [] 0 2024
        (fun _ => 0) (fun _ => SendOutcome.success "m")).status = 404 ∧
      (approveRecommendationRoute (some "baseline-n123ab-100hour") (some "Jane Doe")
          none [{ sampleRecommendation with aircraftId := "n999zz" }] [] 0 2024
          (fun _ => 0) (fun _ => SendOutcome.success "m")).error =
        some "Aircraft not found" ∧
      (approveRecommendationRoute (some "baseline-n123ab-100hour") (some "Jane Doe")
          none [{ sampleRecommendation with aircraftId := "n999zz" }] [] 0 2024
          (fun _ => 0) (fun _ => SendOutcome.success "m")).recs =
        [{ sampleRecommendation with aircraftId := "n999zz" }] ∧
      ((approveRecommendationRoute (some "baseline-n123ab-100hour") (some "Jane Doe")
          none [{ sampleRecommendation with aircraftId := "n999zz" }] [] 0 2024
          (fun _ => 0) (fun _ => SendOutcome.success "m")).recs.map
        Recommendation.status) = ["PENDING"] ∧
      (approveRecommendationRoute (some "baseline-n123ab-100hour") (some "Jane Doe")
          none [{ sampleRecommendation with aircraftId := "n999zz" }] [] 0 2024
          (fun _ => 0) (fun _ => SendOutcome.success "m")).workflows = [] :=
  ⟨rfl, rfl, rfl, rfl, rfl⟩

/-- C10: on an empty store the `ai-recommendations` GET handler seeds
exactly two baseline PENDING recommendations (types `100_HOUR` and `ANNUAL`)
per mock aircraft — six in total — so the unfiltered response is never
empty; and in every response `totalCount` is the length of the returned list
and `pendingApprovals` counts its PENDING entries. -/
theorem getAIRecommendations_seeds_and_counts :
    (∀ now, ((getAIRecommendations none none [] now).newStore.map
        (fun rec => (rec.tailNumber, rec.maintenanceType, rec.status))) =
      [("N123AB", "100_HOUR", "PENDING"), ("N123AB", "ANNUAL", "PENDING"),
       ("N456CD", "100_HOUR", "PENDING"), ("N456CD", "ANNUAL", "PENDING"),
       ("N789XY", "100_HOUR", "PENDING"), ("N789XY", "ANNUAL", "PENDING")]) ∧
    (∀ now, (getAIRecommendations none none [] now).newStore.length = 6) ∧
    (∀ store : List Recommendation, ∀ now,
      0 < (getAIRecommendations none none store now).recommendations.length) ∧
    (∀ tailNumber status : Option String, ∀ store : List Recommendation, ∀ now,
      (getAIRecommendations tailNumber status store now).totalCount =
        (getAIRecommendations tailNumber status store now).recommendations.length ∧
      (getAIRecommendations tailNumber status store now).pendingApprovals =
        ((getAIRecommendations tailNumber status store now).recommendations.filter
          (fun rec => rec.status = "PENDING")).length) := by
  refine ⟨fun now => rfl, fun now => rfl, ?_, fun tn st store now => ⟨rfl, rfl⟩⟩
  intro store now
  cases store with
  | nil => exact Nat.succ_pos _
  | cons rec rest => exact Nat.succ_pos _

theorem clamp52_94_mem (x : ℚ) :
    50 ≤ max 52 (min 94 x) ∧ max 52 (min 94 x) ≤ 95 :=
  ⟨le_trans (by norm_num) (le_max_left _ _),
   max_le (by norm_num) (le_trans (min_le_left _ _) (by norm_num))⟩

theorem clamp50_95_mem (x : ℚ) :
    50 ≤ max 50 (min 95 x) ∧ max 50 (min 95 x) ≤ 95 :=
  ⟨le_max_left _ _,
   max_le (by norm_num) (min_le_left _ _)⟩

theorem demoConfidence_bounds (scheduleDemand : ScheduleDemandData)
    (seasonalData : SeasonalData) (maintenanceWindow : String)
    (historyLength : Nat) (utilization : UtilizationData) (jitter : ℚ) :
    50 ≤ demoConfidence scheduleDemand seasonalData maintenanceWindow
        historyLength utilization jitter ∧
      demoConfidence scheduleDemand seasonalData maintenanceWindow
        historyLength utilization jitter ≤ 95 :=
  clamp52_94_mem _

theorem demoRecLoop_confidence (input : MaintenanceRecommendationInput)
    (scheduleDemand : ScheduleDemandData) (seasonalData : SeasonalData)
    (currentSeason : String) (isPeak : Bool) (maintenanceWindow : String)
    (now : Nat) (r : Nat → ℚ) :
    ∀ k ctr i, ∀ rec ∈ demoRecLoop input scheduleDemand seasonalData
        currentSeason isPeak maintenanceWindow now r ctr i k,
      50 ≤ rec.confidence ∧ rec.confidence ≤ 95 := by
  intro k
  induction k with
  | zero =>
      intro ctr i rec h
      simp [demoRecLoop] at h
  | succ k ih =>
      intro ctr i rec h
      simp only [demoRecLoop, List.mem_cons] at h
      rcases h with h | h
      · subst h
        exact demoConfidence_bounds _ _ _ _ _ _
      · exact ih (ctr + 2) (i + 1) rec h

theorem demoRecsForInput_confidence (input : MaintenanceRecommendationInput)
    (month now : Nat) (r : Nat → ℚ) (ctr : Nat) :
    ∀ rec ∈ (demoRecsForInput input month now r ctr).1,
      50 ≤ rec.confidence ∧ rec.confidence ≤ 95 := by
  intro rec h
  cases hsd : input.scheduleDemandData with
  | none =>
      simp only [demoRecsForInput, hsd] at h
      exact demoRecLoop_confidence _ _ _ _ _ _ _ _ _ _ _ rec h
  | some sd =>
      simp only [demoRecsForInput, hsd] at h
      exact demoRecLoop_confidence _ _ _ _ _ _ _ _ _ _ _ rec h

theorem demoRecsAux_confidence (month now : Nat) (r : Nat → ℚ) :
    ∀ (inputs : List MaintenanceRecommendationInput) (ctr : Nat),
      ∀ rec ∈ demoRecsAux month now r inputs ctr,
        50 ≤ rec.confidence ∧ rec.confidence ≤ 95 := by
  intro inputs
  induction inputs with
  | nil =>
      intro ctr rec h
      simp [demoRecsAux] at h
  | cons input rest ih =>
      intro ctr rec h
      simp only [demoRecsAux, List.mem_append] at h
      rcases h with h | h
      · exact demoRecsForInput_confidence input month now r ctr rec h
      · exact ih _ rec h

/-- C6: every recommendation produced by the recommendation generator has
confidence within `[50, 95]` — the demo generator clamps each confidence
into `[52, 94] ⊆ [50, 95]`, and `processAIRecommendations` clamps each
model-returned confidence by `Math.max(50, Math.min(95, …))`. -/
theorem generator_confidence_in_range :
    (∀ (inputs : List MaintenanceRecommendationInput) (month now : Nat)
        (r : Nat → ℚ),
      ((generateEnhancedDemoRecommendations inputs month now r).all fun rec =>
        decide (50 ≤ rec.confidence ∧ rec.confidence ≤ 95)) = true) ∧
    (∀ (raws : List RawAIRec) (now : Nat),
      ((raws.map (processedAIRec now)).all fun rec =>
        decide (50 ≤ rec.confidence ∧ rec.confidence ≤ 95)) = true ∧
      processAIRecommendations now (some raws) =
        Except.ok (raws.map (processedAIRec now))) := by
  constructor
  · intro inputs month now r
    rw [List.all_eq_true]
    intro rec hrec
    rw [decide_eq_true_eq]
    have hmem : rec ∈ demoRecsAux month now r inputs 0 :=
      List.take_subset _ _ hrec
    exact demoRecsAux_confidence month now r inputs 0 rec hmem
  · intro raws now
    refine ⟨?_, rfl⟩
    rw [List.all_eq_true]
    intro rec hrec
    rw [decide_eq_true_eq]
    rcases List.mem_map.mp hrec with ⟨raw, _, hraw⟩
    rw [← hraw]
    exact clamp50_95_mem _

/-- C7 (amended): `createWorkflowFromRecommendation` is deterministic only
in its non-random fields: for a fixed index, the derived id, the copied
recommendation fields, the status, the personnel assignments, the hangar,
the equipment list and the current-task/next-milestone strings agree across
any two invocations (any random streams and clock readings) and depend on
the recommendation only through its `id`, `aircraftId`, `tailNumber` and
`maintenanceType`; the progress counts, parts list, timeline and
notification fields consume `Math.random()` draws and may differ. -/
theorem createWorkflowFromRecommendation_deterministic_fields
    (rec rec' : Recommendation) (index : Nat) (r r' : Nat → ℚ) (now now' : Nat)
    (hid : rec.id = rec'.id) (hair : rec.aircraftId = rec'.aircraftId)
    (htail : rec.tailNumber = rec'.tailNumber)
    (htype : rec.maintenanceType = rec'.maintenanceType) :
    (createWorkflowFromRecommendation rec index r now).id =
        (createWorkflowFromRecommendation rec' index r' now').id ∧
      (createWorkflowFromRecommendation rec index r now).recommendationId =
        (createWorkflowFromRecommendation rec' index r' now').recommendationId ∧
      (createWorkflowFromRecommendation rec index r now).aircraftId =
        (createWorkflowFromRecommendation rec' index r' now').aircraftId ∧
      (createWorkflowFromRecommendation rec index r now).tailNumber =
        (createWorkflowFromRecommendation rec' index r' now').tailNumber ∧
      (createWorkflowFromRecommendation rec index r now).maintenanceType =
        (createWorkflowFromRecommendation rec' index r' now').maintenanceType ∧
      (createWorkflowFromRecommendation rec index r now).status =
        (createWorkflowFromRecommendation rec' index r' now').status ∧
      (createWorkflowFromRecommendation rec index r now).assignments =
        (createWorkflowFromRecommendation rec' index r' now').assignments ∧
      (createWorkflowFromRecommendation rec index r now).resources.hangar =
        (createWorkflowFromRecommendation rec' index r' now').resources.hangar ∧
      (createWorkflowFromRecommendation rec index r now).resources.equipment =
        (createWorkflowFromRecommendation rec' index r' now').resources.equipment ∧
      (createWorkflowFromRecommendation rec index r now).progress.currentTask =
        (createWorkflowFromRecommendation rec' index r' now').progress.currentTask ∧
      (createWorkflowFromRecommendation rec index r now).progress.nextMilestone =
        (createWorkflowFromRecommendation rec' index r' now').progress.nextMilestone := by
  simp [createWorkflowFromRecommendation, hid, hair, htail, htype]

/-- Witness for C7 at a concrete input: two invocations with different
random streams, clocks and non-copied recommendation fields still agree on
the deterministic components. -/
theorem createWorkflowFromRecommendation_deterministic_fields_witness :
    (createWorkflowFromRecommendation sampleRecommendation 0 (fun _ => 0) 0).id =
        (createWorkflowFromRecommendation
          { sampleRecommendation with description := "changed" } 0
          (fun _ => 1/2) 5).id ∧
      (createWorkflowFromRecommendation sampleRecommendation 0 (fun _ => 0) 0).status =
        (createWorkflowFromRecommendation
          { sampleRecommendation with description := "changed" } 0
          (fun _ => 1/2) 5).status ∧
      (createWorkflowFromRecommendation sampleRecommendation 0 (fun _ => 0) 0).assignments =
        (createWorkflowFromRecommendation
          { sampleRecommendation with description := "changed" } 0
          (fun _ => 1/2) 5).assignments :=
  have h := createWorkflowFromRecommendation_deterministic_fields
    sampleRecommendation { sampleRecommendation with description := "changed" }
    0 (fun _ => 0) (fun _ => 1/2) 0 5 rfl rfl rfl rfl
  ⟨h.1, h.2.2.2.2.2.1, h.2.2.2.2.2.2.1⟩

/-- Counterexample to C7 as stated: with the same recommendation and index,
two invocations drawing different `Math.random()` values produce different
progress counts (2 completed tasks versus 6), so the full records differ. -/
theorem createWorkflowFromRecommendation_counterexample :
    (createWorkflowFromRecommendation sampleRecommendation 0
        (fun _ => 0) 0).progress.tasksCompleted = 2 ∧
      (createWorkflowFromRecommendation sampleRecommendation 0
          (fun _ => 1/2) 0).progress.tasksCompleted = 6 ∧
      createWorkflowFromRecommendation sampleRecommendation 0 (fun _ => 0) 0 ≠
        createWorkflowFromRecommendation sampleRecommendation 0 (fun _ => 1/2) 0 := by
  have e0 : (createWorkflowFromRecommendation sampleRecommendation 0
      (fun _ => 0) 0).progress.tasksCompleted = 2 := by
    show jsFloorNat ((0 : ℚ) * 8) + 2 = 2
    norm_num [jsFloorNat]
  have e4 : (createWorkflowFromRecommendation sampleRecommendation 0
      (fun _ => 1/2) 0).progress.tasksCompleted = 6 := by
    show jsFloorNat ((1 : ℚ)/2 * 8) + 2 = 6
    have : ((1 : ℚ)/2 * 8) = 4 := by norm_num
    rw [jsFloorNat, this]
    norm_num
    omega
  refine ⟨e0, e4, fun h => ?_⟩
  have h2 := congrArg (fun w => w.progress.tasksCompleted) h
  simp only at h2
  rw [e0, e4] at h2
  exact absurd h2 (by decide)

/-- C8 (amended): in simulation provider mode, two successful sends produce
different message ids whenever their millisecond clock readings differ or
their random suffixes differ — the id is `msg-<now>-<suffix>` and this
encoding is injective.  (As stated the claim fails only in the measure-zero
coincidence that both `Date.now()` and the `Math.random()` suffix repeat
across the two invocations, which the id embeds nothing to distinguish.) -/
theorem sendEmailSimulated_distinct_message_ids
    (recipient recipient' : EmailRecipient) (subject subject' : String)
    (env env' : SimEnv)
    (hs : (sendEmailSimulated recipient subject env).success = true)
    (hs' : (sendEmailSimulated recipient' subject' env').success = true)
    (hdiff : env.now ≠ env'.now ∨ randSuffix env.seed ≠ randSuffix env'.seed) :
    (sendEmailSimulated recipient subject env).messageId ≠
      (sendEmailSimulated recipient' subject' env').messageId := by
  intro h
  by_cases hfail : env.failRoll < 1/20
  · simp only [sendEmailSimulated] at hs
    rw [if_pos hfail] at hs
    simp at hs
  · by_cases hfail' : env'.failRoll < 1/20
    · simp only [sendEmailSimulated] at hs'
      rw [if_pos hfail'] at hs'
      simp at hs'
    · simp only [sendEmailSimulated] at h
      rw [if_neg hfail, if_neg hfail'] at h
      have h3 := mkSimMessageId_inj (Option.some.inj h)
      rcases hdiff with hd | hd
      · exact hd h3.1
      · exact hd h3.2

/-- Witness for C8 at concrete inputs: two successful sends to the same
recipient one millisecond apart carry different message ids. -/
theorem sendEmailSimulated_distinct_message_ids_witness :
    (sendEmailSimulated ⟨"John Smith", "john.smith@ganderaviation.com", "MECHANIC"⟩
        "Maintenance Notification" ⟨1, 42, 1⟩).messageId ≠
      (sendEmailSimulated ⟨"John Smith", "john.smith@ganderaviation.com", "MECHANIC"⟩
        "Maintenance Notification" ⟨2, 42, 1⟩).messageId :=
  sendEmailSimulated_distinct_message_ids
    ⟨"John Smith", "john.smith@ganderaviation.com", "MECHANIC"⟩
    ⟨"John Smith", "john.smith@ganderaviation.com", "MECHANIC"⟩
    "Maintenance Notification" "Maintenance Notification" ⟨1, 42, 1⟩ ⟨2, 42, 1⟩
    (by norm_num [sendEmailSimulated]) (by norm_num [sendEmailSimulated])
    (Or.inl (by decide))

/-- Counterexample to C8 as stated: two distinct successful sends to the
same recipient (different subjects) whose clock reading and random draw
coincide return the same message id — the id depends on nothing else. -/
theorem sendEmailSimulated_counterexample :
    "Maintenance A" ≠ "Maintenance B" ∧
      (sendEmailSimulated ⟨"John Smith", "john.smith@ganderaviation.com", "MECHANIC"⟩
          "Maintenance A" ⟨999, 42, 1⟩).success = true ∧
      (sendEmailSimulated ⟨"John Smith", "john.smith@ganderaviation.com", "MECHANIC"⟩
          "Maintenance B" ⟨999, 42, 1⟩).success = true ∧
      (sendEmailSimulated ⟨"John Smith", "john.smith@ganderaviation.com", "MECHANIC"⟩
          "Maintenance A" ⟨999, 42, 1⟩).messageId =
        (sendEmailSimulated ⟨"John Smith", "john.smith@ganderaviation.com", "MECHANIC"⟩
          "Maintenance B" ⟨999, 42, 1⟩).messageId := by
  have hA : (sendEmailSimulated ⟨"John Smith", "john.smith@ganderaviation.com", "MECHANIC"⟩
      "Maintenance A" ⟨999, 42, 1⟩).messageId =
      some (mkSimMessageId 999 (randSuffix 42)) := by
    norm_num [sendEmailSimulated]
  have hB : (sendEmailSimulated ⟨"John Smith", "john.smith@ganderaviation.com", "MECHANIC"⟩
      "Maintenance B" ⟨999, 42, 1⟩).messageId =
      some (mkSimMessageId 999 (randSuffix 42)) := by
    norm_num [sendEmailSimulated]
  refine ⟨by decide, by norm_num [sendEmailSimulated], by norm_num [sendEmailSimulated], ?_⟩
  rw [hA, hB]
